import Mathlib

/-!
# Node creation command (`cmd/nodecmd/create.go`)

A shallow embedding of the `node create` command and proofs about its
provisioning decision logic.

The command is sequential glue around external collaborators (cloud API,
provisioning tool, configuration tool, prompt, local state files).  The
embedding keeps the control flow of every Go function and replaces each
collaborator by a field of `Env` that gives the value the collaborator returns
for its arguments; within one run a collaborator answers the same arguments in
the same way.  Everything the command does to the outside world is recorded, in
order, as an `Event` of the `World` log: the messages printed, the resources
declared in the provisioning document, the files written and the tools run.
The provisioning document `rootBody` is the sequence of `Set...` events.

The user is a script of answers, one list for each kind of prompt.  A command
run on a world returns `none` when it is still waiting at a prompt after the
script has ended; otherwise it returns the Go result (a value or an error)
and the world it leaves behind.  The two `for` loops of the source take one
answer on every turn, and are given one turn more than there are answers.

The two long functions are embedded in consecutive blocks, each named after
the function and the lines it covers: `createEC2Instance` runs
`createEC2Instance_keyPair` and `createEC2Instance_securityGroup`, and
`createNode` runs `createNode_setup` and then `createNode_provisioningFailed`
or `createNode_provisioned`.
-/

set_option autoImplicit false

namespace NodeCmd

/-! ## Data model -/

/-- A Go `error`, identified by its text (`err.Error()`). -/
abbrev Err := String

/-- The record `models.NodeConfig`, as filled in by `createClusterNodeConfig`. -/
structure NodeConfig where
  NodeID : String
  Region : String
  AMI : String
  KeyPair : String
  CertPath : String
  SecurityGroup : String
  ElasticIP : String
deriving DecidableEq, Repr

/-- A Go `map[string]α`: `none` is the nil map, otherwise the entries in an
association list read from the front. -/
abbrev GoMap (α : Type) := Option (List (String × α))

/-- Value stored under key `k` in a list of entries (`m[k]` with the `ok` flag). -/
def entriesGet {α : Type} (k : String) : List (String × α) → Option α
  | [] => none
  | (k', v) :: rest => if k' = k then some v else entriesGet k rest

/-- Assignment `m[k] = v` on a non-nil map: overwrite the entry of `k` or add one. -/
def entriesSet {α : Type} (k : String) (v : α) : List (String × α) → List (String × α)
  | [] => [(k, v)]
  | (k', v') :: rest =>
    if k' = k then (k, v) :: rest else (k', v') :: entriesSet k v rest

/-- Lookup in a Go map; the nil map has no keys. -/
def GoMap.get? {α : Type} (m : GoMap α) (k : String) : Option α :=
  match m with
  | none => none
  | some es => entriesGet k es

/-- The record `models.ClusterConfig`: key-pair name to certificate path, and
cluster name to the ordered list of node IDs. -/
structure ClusterConfig where
  KeyPair : GoMap String
  Clusters : GoMap (List String)
deriving DecidableEq, Repr

/-- The part of `models.Sidecar` read by this command. -/
structure Sidecar where
  RPCVersion : Int
deriving DecidableEq, Repr

/-- An inbound rule of a cloud security group. -/
structure IpPermission where
  FromPort : Nat
  ToPort : Nat
  IpRanges : List String
deriving DecidableEq, Repr

/-- The part of `ec2.SecurityGroup` read by this command. -/
structure SecurityGroup where
  GroupId : String
  IpPermissions : List IpPermission
deriving DecidableEq, Repr

/-- The cloud client `*ec2.EC2`, determined by the region of its session. -/
structure EC2 where
  Region : String
deriving DecidableEq, Repr

/-- The values of `pkg/constants` used by this command. -/
structure Constants where
  CertSuffix : String
  EIPLimitErr : String
  SSHTCPPort : Nat
  AvalanchegoAPIPort : Nat
  AvalancheCLISuffix : String
  AWSSecurityGroupSuffix : String
  AWSDefaultCredential : String
  AvalancheGoCompatibilityURL : String
deriving DecidableEq, Repr

/-! ## Effects -/

/-- One observable action of the command, with the arguments it was given. -/
inductive Event where
  | PrintToUser (msg : String)
  | CaptureList (txt : String) (options : List String)
  | CaptureString (txt : String)
  | CaptureYesNo (txt : String)
  -- pkg/application
  | LoadClusterConfig
  | WriteClusterConfigFile (cfg : ClusterConfig)
  | CreateNodeCloudConfigFile (nodeID : String) (cfg : NodeConfig)
  | CheckCertInSSHDir (certName : String)
  | GetSSHCertFilePath (certName : String)
  | CreateTerraformDir
  | SetupAnsibleEnv
  | LoadSidecar (subnetName : String)
  -- pkg/aws
  | CheckKeyPairExists (ec2Svc : EC2) (keyPairName : String)
  | CheckSecurityGroupExists (ec2Svc : EC2) (sgName : String)
  | GetUbuntuAMIID (ec2Svc : EC2)
  | StopInstance (ec2Svc : EC2) (instanceID : String)
  | CredentialsGet (profile : String)
  | NewSession (region : String)
  -- pkg/terraform: the provisioning document and the tool
  | TerraformCheckIsInstalled
  | RemoveDirectory (dir : String)
  | InitConf
  | SetCloudCredentials (region : String)
  | SetKeyPair (keyPairName certName : String)
  | SetSecurityGroup (ipAddress sgName : String)
  | SetSecurityGroupRule (ipAddress sgID : String) (ipInTCP ipInHTTP : Bool)
  | SetElasticIP
  | SetupInstance (sgName : String) (useExistingKeyPair : Bool) (keyPairName ami : String)
  | SetOutput
  | SaveConf (dir : String)
  | RunTerraform (dir : String)
  | GetInstanceID (dir : String)
  -- pkg/ansible
  | AnsibleCheckIsInstalled
  | CreateAnsibleHostInventory (inventoryPath elasticIP certFilePath : String)
  | AnsibleSetup (dir : String)
  | RunAnsibleSetupNodePlaybook (configPath ansibleDir inventoryPath version : String)
  | RunAnsibleCopyStakingFilesPlaybook (ansibleDir nodeDir inventoryPath : String)
  -- subnet, vm
  | ValidateSubnetNameAndGetChains (names : List String)
  | GetLatestAvalancheGoByProtocolVersion (rpcVersion : Int) (url : String)
  -- operating system
  | UserCurrent
  | Sleep (seconds : Nat)
  | Curl (url : String)
  | Chmod (path : String) (mode : Nat)
  | Rename (oldPath newPath : String)
  | SshAdd (path : String)
deriving DecidableEq, Repr

/-- The state threaded through a run: the answers the user will give to each
kind of prompt, in order, and the log of what has been done so far. -/
structure World where
  listAnswers : List (Except Err String)
  stringAnswers : List (Except Err String)
  yesNoAnswers : List (Except Err Bool)
  log : List Event

/-- A command: from a world to a result (value or Go error) and the world
after it.  `none` means the command is still waiting at a prompt when the
scripted answers are used up. -/
def M (α : Type) : Type := World → Option (Except Err α × World)

/-- Command that returns `a` and does nothing. -/
def M.pure {α : Type} (a : α) : M α := fun w => some (Except.ok a, w)

/-- Sequencing: a Go error of the first command is returned at once
(`if err != nil { return err }`). -/
def M.bind {α β : Type} (m : M α) (f : α → M β) : M β := fun w =>
  match m w with
  | none => none
  | some (Except.error e, w1) => some (Except.error e, w1)
  | some (Except.ok a, w1) => f a w1

instance : Monad M where
  pure := M.pure
  bind := M.bind

/-- Record an event in the log. -/
def emit (e : Event) : M Unit := fun w =>
  some (Except.ok (), { w with log := w.log ++ [e] })

/-- Return the outcome `r` of a call. -/
def outcome {α : Type} (r : Except Err α) : M α := fun w => some (r, w)

/-- A call to a collaborator that returns a value or an error. -/
def call {α : Type} (e : Event) (r : Except Err α) : M α := do
  emit e
  outcome r

/-- Outcome of a Go function whose only result is an `error`. -/
def errOnly (r : Option Err) : Except Err Unit :=
  match r with
  | none => Except.ok ()
  | some e => Except.error e

/-- Run `m` and hand its error, if any, to the caller instead of returning it
(`x, err := m(); if err != nil { ... }` with a body that goes on). -/
def attempt {α : Type} (m : M α) : M (Except Err α) := fun w =>
  match m w with
  | none => none
  | some (r, w1) => some (Except.ok r, w1)

/-- The call `ux.Logger.PrintToUser`. -/
def PrintToUser (msg : String) : M Unit := emit (Event.PrintToUser msg)

/-- The call `app.Prompt.CaptureString`: the next scripted answer. -/
def CaptureString (txt : String) : M String := fun w =>
  match w.stringAnswers with
  | [] => none
  | r :: rest =>
    some (r, { w with stringAnswers := rest, log := w.log ++ [Event.CaptureString txt] })

/-- The call `app.Prompt.CaptureList`: the next scripted answer. -/
def CaptureList (txt : String) (options : List String) : M String := fun w =>
  match w.listAnswers with
  | [] => none
  | r :: rest =>
    some (r, { w with listAnswers := rest, log := w.log ++ [Event.CaptureList txt options] })

/-- The call `app.Prompt.CaptureYesNo`: the next scripted answer. -/
def CaptureYesNo (txt : String) : M Bool := fun w =>
  match w.yesNoAnswers with
  | [] => none
  | r :: rest =>
    some (r, { w with yesNoAnswers := rest, log := w.log ++ [Event.CaptureYesNo txt] })

/-- The collaborators of the command: for each function of another package,
the value it returns for its arguments during the run. -/
structure Env where
  constants : Constants
  -- pkg/application
  ClusterConfigExists : Bool
  LoadClusterConfig : Except Err ClusterConfig
  WriteClusterConfigFile : ClusterConfig → Option Err
  CreateNodeCloudConfigFile : String → NodeConfig → Option Err
  CheckCertInSSHDir : String → Except Err Bool
  GetSSHCertFilePath : String → Except Err String
  GetTempCertPath : String → String
  GetTerraformDir : String
  CreateTerraformDir : Option Err
  GetAnsibleInventoryPath : String → String
  GetAnsibleDir : String
  GetConfigPath : String
  GetNodeInstanceDirPath : String → String
  SetupAnsibleEnv : Option Err
  LoadSidecar : String → Except Err Sidecar
  -- pkg/aws and the cloud SDK
  CheckKeyPairExists : EC2 → String → Except Err Bool
  CheckSecurityGroupExists : EC2 → String → Except Err (Bool × SecurityGroup)
  CheckUserIPInSg : SecurityGroup → String → Nat → Bool
  GetUbuntuAMIID : EC2 → Except Err String
  StopInstance : EC2 → String → Option Err
  CredentialsGet : String → Option Err
  NewSession : String → Option Err
  -- pkg/terraform
  TerraformCheckIsInstalled : Option Err
  RemoveDirectory : String → Option Err
  InitConf : Option Err
  SetCloudCredentials : String → Option Err
  SaveConf : String → Option Err
  RunTerraform : String → Except Err (String × String)
  GetInstanceID : String → Except Err String
  -- pkg/ansible
  AnsibleCheckIsInstalled : Option Err
  CreateAnsibleHostInventory : String → String → String → Option Err
  AnsibleSetup : String → Option Err
  RunAnsibleSetupNodePlaybook : String → String → String → String → Option Err
  RunAnsibleCopyStakingFilesPlaybook : String → String → String → Option Err
  -- cmd/subnetcmd, pkg/vm
  ValidateSubnetNameAndGetChains : List String → Except Err (List String)
  GetLatestAvalancheGoByProtocolVersion : Int → String → Except Err String
  -- operating system and standard library
  UserCurrent : Except Err String
  Curl : String → Except Err String
  JsonUnmarshal : String → Except Err (List (String × Option String))
  ParseIP : String → Bool
  Chmod : String → Nat → Option Err
  Rename : String → String → Option Err
  SshAdd : String → Option Err

/-! ## The command -/

/-- Go `updateClusterConfig` (create.go, lines 98-122). -/
def updateClusterConfig (env : Env) (nodeID keyPairName certPath clusterName : String) :
    M Unit := do
  let clusterConfig ←
    (if env.ClusterConfigExists then
      call Event.LoadClusterConfig env.LoadClusterConfig
    else
      pure ({ KeyPair := none, Clusters := none } : ClusterConfig))
  let keyPair : List (String × String) :=
    match clusterConfig.KeyPair with
    | none => []
    | some m => m
  let keyPair :=
    match entriesGet keyPairName keyPair with
    | some _ => keyPair
    | none => entriesSet keyPairName certPath keyPair
  let clusters : List (String × List String) :=
    match clusterConfig.Clusters with
    | none => []
    | some m => m
  let clusters :=
    match entriesGet clusterName clusters with
    | some _ => clusters
    | none => entriesSet clusterName [] clusters
  let clusters :=
    entriesSet clusterName ((entriesGet clusterName clusters).getD [] ++ [nodeID]) clusters
  let written : ClusterConfig := { KeyPair := some keyPair, Clusters := some clusters }
  call (Event.WriteClusterConfigFile written) (errOnly (env.WriteClusterConfigFile written))

/-- Go `createClusterNodeConfig` (create.go, lines 81-96). -/
def createClusterNodeConfig (env : Env)
    (nodeID region ami keyPairName certPath sg eip clusterName : String) : M Unit := do
  let nodeConfig : NodeConfig :=
    { NodeID := nodeID
      Region := region
      AMI := ami
      KeyPair := keyPairName
      CertPath := certPath
      SecurityGroup := sg
      ElasticIP := eip }
  call (Event.CreateNodeCloudConfigFile nodeID nodeConfig)
    (errOnly (env.CreateNodeCloudConfigFile nodeID nodeConfig))
  updateClusterConfig env nodeID keyPairName certPath clusterName

/-- The loop of Go `getNewKeyPairName` (create.go, lines 63-76); `fuel` bounds
the number of times the prompt is shown. -/
def getNewKeyPairNameLoop (env : Env) (ec2Svc : EC2) : Nat → M String
  | 0 => fun _ => none
  | fuel + 1 => do
    let newKeyPairName ← CaptureString "Key Pair Name"
    let keyPairExists ← call (Event.CheckKeyPairExists ec2Svc newKeyPairName)
      (env.CheckKeyPairExists ec2Svc newKeyPairName)
    if !keyPairExists then
      pure newKeyPairName
    else do
      PrintToUser ("Key Pair named " ++ newKeyPairName ++ " already exists")
      getNewKeyPairNameLoop env ec2Svc fuel

/-- Go `getNewKeyPairName` (create.go, lines 61-77).  Each turn of the loop
takes one scripted answer, so one turn more than there are answers is enough
fuel for any run. -/
def getNewKeyPairName (env : Env) (ec2Svc : EC2) : M String := do
  PrintToUser "What do you want to name your key pair?"
  fun w => getNewKeyPairNameLoop env ec2Svc (w.stringAnswers.length + 1) w

/-- Go `printNoCredentialsOutput` (create.go, lines 124-131). -/
def printNoCredentialsOutput : M Unit := do
  PrintToUser "No AWS credentials file found in ~/.aws/credentials"
  PrintToUser "Create a file called 'credentials' with the contents below, and add the file to ~/.aws/ directory"
  PrintToUser "===========BEGINNING OF FILE==========="
  PrintToUser "[default]\naws_access_key_id=<AWS_ACCESS_KEY>\naws_secret_access_key=<AWS_SECRET_ACCESS_KEY>"
  PrintToUser "===========END OF FILE==========="
  PrintToUser "More info can be found at https://docs.aws.amazon.com/sdkref/latest/guide/file-format.html#file-format-creds"

/-- Go `requestAWSAccountAuth` (create.go, lines 392-407). -/
def requestAWSAccountAuth : M Unit := do
  PrintToUser "Do you authorize Avalanche-CLI to access your AWS account to set-up your Avalanche Validator node?"
  PrintToUser "Please note that you will be charged for AWS usage."
  PrintToUser "By clicking yes, you are authorizing Avalanche-CLI to:"
  PrintToUser "- Set up EC2 instance(s) and other components (such as security groups, key pairs and elastic IPs)"
  PrintToUser "- Set up the EC2 instance(s) to validate the Avalanche Primary Network"
  PrintToUser "- Set up the EC2 instance(s) to validate Subnets"
  let yes ← CaptureYesNo "I authorize Avalanche-CLI to access my AWS account"
  if !yes then
    outcome (Except.error "user did not give authorization to Avalanche-CLI to access AWS account")
  else
    pure ()

/-- Go `getAWSCloudCredentials` (create.go, lines 134-152); the session is
represented by its region. -/
def getAWSCloudCredentials (env : Env) (region : String) : M String := do
  requestAWSAccountAuth
  let profile := env.constants.AWSDefaultCredential
  let got ← attempt (call (Event.CredentialsGet profile) (errOnly (env.CredentialsGet profile)))
  match got with
  | Except.error err => do
    printNoCredentialsOutput
    outcome (Except.error err)
  | Except.ok _ => do
    call (Event.NewSession region) (errOnly (env.NewSession region))
    pure region

/-- Go `promptKeyPairName` (create.go, lines 155-162): the pair
`(certName, keyPairName)`. -/
def promptKeyPairName (env : Env) (ec2Svc : EC2) : M (String × String) := do
  let newKeyPairName ← getNewKeyPairName env ec2Svc
  let certName := newKeyPairName ++ env.constants.CertSuffix
  pure (certName, newKeyPairName)

/-- Go `getAWSCloudConfig` (create.go, lines 164-193): the triple
`(ec2Svc, region, ami)`. -/
def getAWSCloudConfig (env : Env) : M (EC2 × String × String) := do
  let usEast1 := "us-east-1"
  let usEast2 := "us-east-2"
  let usWest1 := "us-west-1"
  let usWest2 := "us-west-2"
  let customRegion := "Choose custom region (list of regions available at https://docs.aws.amazon.com/AWSEC2/latest/UserGuide/using-regions-availability-zones.html)"
  let region ← CaptureList "Which AWS region do you want to set up your node in?"
    [usEast1, usEast2, usWest1, usWest2, customRegion]
  let region ←
    (if region = customRegion then
      CaptureString "Which AWS region do you want to set up your node in?"
    else
      pure region)
  let sess ← getAWSCloudCredentials env region
  let ec2Svc : EC2 := { Region := sess }
  let ami ← call (Event.GetUbuntuAMIID ec2Svc) (env.GetUbuntuAMIID ec2Svc)
  pure (ec2Svc, region, ami)

/-- Go `getIPAddress` (create.go, lines 409-426). -/
def getIPAddress (env : Env) : M String := do
  let ipOutput ← call (Event.Curl "https://api.ipify.org?format=json")
    (env.Curl "https://api.ipify.org?format=json")
  let result ← outcome (env.JsonUnmarshal ipOutput)
  match entriesGet "ip" result with
  | some (some ipAddress) =>
    if !env.ParseIP ipAddress then
      outcome (Except.error "invalid IP address")
    else
      pure ipAddress
  | _ => outcome (Except.error "no IP address found")

/-- Go `addCertToSSH` (create.go, lines 429-446). -/
def addCertToSSH (env : Env) (certName : String) : M Unit := do
  let certPath := env.GetTempCertPath certName
  call (Event.Chmod certPath 0o400) (errOnly (env.Chmod certPath 0o400))
  let certFilePath ← call (Event.GetSSHCertFilePath certName) (env.GetSSHCertFilePath certName)
  call (Event.Rename certPath certFilePath) (errOnly (env.Rename certPath certFilePath))
  call (Event.SshAdd certFilePath) (errOnly (env.SshAdd certFilePath))

/-- Key-pair resolution of Go `createEC2Instance` (create.go, lines 209-244):
the triple `(useExistingKeyPair, certName, keyPairName)` with which the
function goes on. -/
def createEC2Instance_keyPair (env : Env) (ec2Svc : EC2) (certName keyPairName : String) :
    M (Bool × String × String) := do
  let keyPairExists ← call (Event.CheckKeyPairExists ec2Svc keyPairName)
    (env.CheckKeyPairExists ec2Svc keyPairName)
  let certInSSHDir ← call (Event.CheckCertInSSHDir certName) (env.CheckCertInSSHDir certName)
  if !keyPairExists then
    if !certInSSHDir then do
      PrintToUser ("Creating new key pair " ++ keyPairName ++ " in AWS")
      emit (Event.SetKeyPair keyPairName certName)
      pure (false, certName, keyPairName)
    else do
      PrintToUser ("Default Key Pair named " ++ keyPairName ++ " already exists on your .ssh directory but not on AWS")
      PrintToUser ("We need to create a new Key Pair in AWS as we can't find Key Pair named " ++ keyPairName ++ " in AWS")
      let (certName, keyPairName) ← promptKeyPairName env ec2Svc
      emit (Event.SetKeyPair keyPairName certName)
      pure (false, certName, keyPairName)
  else
    if certInSSHDir then do
      PrintToUser ("Using existing key pair " ++ keyPairName ++ " in AWS")
      pure (true, certName, keyPairName)
    else do
      PrintToUser ("Default Key Pair named " ++ keyPairName ++ " already exists in AWS")
      PrintToUser ("We need to create a new Key Pair in AWS as we can't find Key Pair named " ++ keyPairName ++ " in your .ssh directory")
      let (certName, keyPairName) ← promptKeyPairName env ec2Svc
      emit (Event.SetKeyPair keyPairName certName)
      pure (false, certName, keyPairName)

/-- Security-group reconciliation of Go `createEC2Instance` (create.go, lines
245-261). -/
def createEC2Instance_securityGroup (env : Env) (ec2Svc : EC2) (securityGroupName : String) :
    M Unit := do
  let (securityGroupExists, sg) ← call (Event.CheckSecurityGroupExists ec2Svc securityGroupName)
    (env.CheckSecurityGroupExists ec2Svc securityGroupName)
  let userIPAddress ← getIPAddress env
  if !securityGroupExists then do
    PrintToUser ("Creating new security group " ++ securityGroupName ++ " in AWS")
    emit (Event.SetSecurityGroup userIPAddress securityGroupName)
  else do
    PrintToUser ("Using existing security group " ++ securityGroupName ++ " in AWS")
    let ipInTCP := env.CheckUserIPInSg sg userIPAddress env.constants.SSHTCPPort
    let ipInHTTP := env.CheckUserIPInSg sg userIPAddress env.constants.AvalanchegoAPIPort
    emit (Event.SetSecurityGroupRule userIPAddress sg.GroupId ipInTCP ipInHTTP)

/-- Go `createEC2Instance` (create.go, lines 196-290): the tuple
`(instanceID, elasticIP, sshCertPath, keyPairName)`.  The provisioning document
`rootBody` is the sequence of `Set...` events of the log. -/
def createEC2Instance (env : Env) (ec2Svc : EC2)
    (region ami certName keyPairName securityGroupName : String) :
    M (String × String × String × String) := do
  call (Event.SetCloudCredentials region) (errOnly (env.SetCloudCredentials region))
  PrintToUser "Creating a new EC2 instance on AWS..."
  let (useExistingKeyPair, certName, keyPairName) ←
    createEC2Instance_keyPair env ec2Svc certName keyPairName
  createEC2Instance_securityGroup env ec2Svc securityGroupName
  emit Event.SetElasticIP
  emit (Event.SetupInstance securityGroupName useExistingKeyPair keyPairName ami)
  emit Event.SetOutput
  call Event.CreateTerraformDir (errOnly env.CreateTerraformDir)
  call (Event.SaveConf env.GetTerraformDir) (errOnly (env.SaveConf env.GetTerraformDir))
  let (instanceID, elasticIP) ← call (Event.RunTerraform env.GetTerraformDir)
    (env.RunTerraform env.GetTerraformDir)
  PrintToUser "A new EC2 instance is successfully created in AWS!"
  if !useExistingKeyPair then
    addCertToSSH env certName
  else
    pure ()
  let sshCertPath ← call (Event.GetSSHCertFilePath certName) (env.GetSSHCertFilePath certName)
  pure (instanceID, elasticIP, sshCertPath, keyPairName)

/-- Go `setupAnsible` (create.go, lines 376-382). -/
def setupAnsible (env : Env) : M Unit := do
  call Event.SetupAnsibleEnv (errOnly env.SetupAnsibleEnv)
  call (Event.AnsibleSetup env.GetAnsibleDir) (errOnly (env.AnsibleSetup env.GetAnsibleDir))

/-- Go `runAnsible` (create.go, lines 384-390). -/
def runAnsible (env : Env) (inventoryPath avalancheGoVersion : String) : M Unit := do
  setupAnsible env
  call (Event.RunAnsibleSetupNodePlaybook env.GetConfigPath env.GetAnsibleDir inventoryPath
      avalancheGoVersion)
    (errOnly (env.RunAnsibleSetupNodePlaybook env.GetConfigPath env.GetAnsibleDir inventoryPath
      avalancheGoVersion))

/-- Go `GetLatestAvagoVersionForRPC` (create.go, lines 470-477). -/
def GetLatestAvagoVersionForRPC (env : Env) (configuredRPCVersion : Int) : M String :=
  call (Event.GetLatestAvalancheGoByProtocolVersion configuredRPCVersion
      env.constants.AvalancheGoCompatibilityURL)
    (env.GetLatestAvalancheGoByProtocolVersion configuredRPCVersion
      env.constants.AvalancheGoCompatibilityURL)

/-- The loop of Go `promptAvalancheGoReferenceChoice` (create.go, lines
495-505); `fuel` bounds the number of times the prompt is shown. -/
def promptSubnetNameLoop (env : Env) : Nat → M String
  | 0 => fun _ => none
  | fuel + 1 => do
    let subnetName ← CaptureString "Which Subnet would you like to use to choose the avalanche go version?"
    let valid ← attempt (call (Event.ValidateSubnetNameAndGetChains [subnetName])
      (env.ValidateSubnetNameAndGetChains [subnetName]))
    match valid with
    | Except.ok _ => pure subnetName
    | Except.error _ => do
      PrintToUser ("no subnet named " ++ subnetName ++ " found")
      promptSubnetNameLoop env fuel

/-- Go `promptAvalancheGoReferenceChoice` (create.go, lines 482-507).  Each
turn of the loop takes one scripted answer, so one turn more than there are
answers is enough fuel for any run. -/
def promptAvalancheGoReferenceChoice (env : Env) : M String := do
  let defaultVersion := "Use latest Avalanche Go Version"
  let txt := "What version of Avalanche Go would you like to install in the node?"
  let versionOptions :=
    [defaultVersion, "Use the deployed Subnet's VM version that the node will be validating"]
  let versionOption ← CaptureList txt versionOptions
  if versionOption = defaultVersion then
    pure "latest"
  else
    fun w => promptSubnetNameLoop env (w.stringAnswers.length + 1) w

/-- Go `getAvalancheGoVersion` (create.go, lines 451-468). -/
def getAvalancheGoVersion (env : Env) : M String := do
  let chosenOption ← promptAvalancheGoReferenceChoice env
  if chosenOption ≠ "latest" then do
    let sc ← call (Event.LoadSidecar chosenOption) (env.LoadSidecar chosenOption)
    let customAvagoVersion ← GetLatestAvagoVersionForRPC env sc.RPCVersion
    pure customAvagoVersion
  else
    pure chosenOption

/-- Go `PrintResults` (create.go, lines 509-526). -/
def PrintResults (env : Env) (instanceID elasticIP certFilePath region : String) : M Unit := do
  PrintToUser "VALIDATOR SUCCESSFULLY SET UP!"
  PrintToUser "Please wait until validator is successfully boostrapped to run further commands on validator"
  PrintToUser ""
  PrintToUser "Here are the details of the set up validator: "
  PrintToUser ("Cloud Instance ID: " ++ instanceID)
  PrintToUser ("Elastic IP: " ++ elasticIP)
  PrintToUser ("Cloud Region: " ++ region)
  PrintToUser ""
  PrintToUser ("Don't delete or replace your ssh private key file at " ++ certFilePath ++ " as you won't be able to access your cloud server without it")
  PrintToUser ""
  PrintToUser ("staker.crt and staker.key are stored at " ++ env.GetNodeInstanceDirPath instanceID ++ ". If anything happens to your node or the machine node runs on, these files can be used to fully recreate your node.")
  PrintToUser ""
  PrintToUser "To ssh to validator, run: "
  PrintToUser ""
  PrintToUser ("ssh -o IdentitiesOnly=yes ubuntu@" ++ elasticIP ++ " -i " ++ certFilePath)
  PrintToUser ""

/-- The names and handles with which Go `createNode` calls `createEC2Instance`. -/
structure Setup where
  ec2Svc : EC2
  region : String
  ami : String
  certName : String
  namePrefix : String
  securityGroupName : String
deriving DecidableEq, Repr

/-- Go `createNode` up to the call of `createEC2Instance` (create.go, lines
294-320). -/
def createNode_setup (env : Env) : M Setup := do
  call Event.TerraformCheckIsInstalled (errOnly env.TerraformCheckIsInstalled)
  call Event.AnsibleCheckIsInstalled (errOnly env.AnsibleCheckIsInstalled)
  call (Event.RemoveDirectory env.GetTerraformDir) (errOnly (env.RemoveDirectory env.GetTerraformDir))
  let usr ← call Event.UserCurrent env.UserCurrent
  let (ec2Svc, region, ami) ← getAWSCloudConfig env
  let namePrefix := usr ++ "-" ++ region ++ env.constants.AvalancheCLISuffix
  let certName := namePrefix ++ "-" ++ region ++ env.constants.CertSuffix
  let securityGroupName := namePrefix ++ "-" ++ region ++ env.constants.AWSSecurityGroupSuffix
  call Event.InitConf (errOnly env.InitConf)
  pure
    { ec2Svc := ec2Svc
      region := region
      ami := ami
      certName := certName
      namePrefix := namePrefix
      securityGroupName := securityGroupName }

/-- Go `createNode` when `createEC2Instance` returned the error `err`
(create.go, lines 323-342). -/
def createNode_provisioningFailed (env : Env) (ec2Svc : EC2) (err : Err) : M Unit := do
  if err = env.constants.EIPLimitErr then
    PrintToUser "Failed to create AWS cloud server, please try creating again in a different region"
  else
    PrintToUser "Failed to create AWS cloud server"
  let instanceID ← call (Event.GetInstanceID env.GetTerraformDir)
    (env.GetInstanceID env.GetTerraformDir)
  PrintToUser ("Stopping AWS cloud server " ++ instanceID ++ "...")
  let stopped ← attempt (call (Event.StopInstance ec2Svc instanceID)
    (errOnly (env.StopInstance ec2Svc instanceID)))
  match stopped with
  | Except.error stopErr => do
    PrintToUser ("Failed to stop cloud server instance " ++ instanceID)
    PrintToUser ("Stop cloud server instance " ++ instanceID ++ " on AWS console to prevent charges")
    outcome (Except.error stopErr)
  | Except.ok _ => do
    PrintToUser ("AWS cloud server instance " ++ instanceID ++ " stopped")
    outcome (Except.error err)

/-- Go `createNode` after `createEC2Instance` returned without error
(create.go, lines 343-371). -/
def createNode_provisioned (env : Env) (clusterName : String) (s : Setup)
    (instanceID elasticIP certFilePath keyPairName : String) : M Unit := do
  call (Event.RemoveDirectory env.GetTerraformDir) (errOnly (env.RemoveDirectory env.GetTerraformDir))
  let inventoryPath := env.GetAnsibleInventoryPath clusterName
  call (Event.CreateAnsibleHostInventory inventoryPath elasticIP certFilePath)
    (errOnly (env.CreateAnsibleHostInventory inventoryPath elasticIP certFilePath))
  emit (Event.Sleep 15)
  let avalancheGoVersion ← getAvalancheGoVersion env
  PrintToUser "Installing AvalancheGo and Avalanche-CLI and starting bootstrap process on the newly created EC2 instance..."
  runAnsible env inventoryPath avalancheGoVersion
  createClusterNodeConfig env instanceID s.region s.ami keyPairName certFilePath
    s.securityGroupName elasticIP clusterName
  PrintToUser "Copying staker.crt and staker.key to local machine..."
  call (Event.RunAnsibleCopyStakingFilesPlaybook env.GetAnsibleDir
      (env.GetNodeInstanceDirPath instanceID) inventoryPath)
    (errOnly (env.RunAnsibleCopyStakingFilesPlaybook env.GetAnsibleDir
      (env.GetNodeInstanceDirPath instanceID) inventoryPath))
  PrintResults env instanceID elasticIP certFilePath s.region
  PrintToUser "AvalancheGo and Avalanche-CLI installed and node is bootstrapping!"

/-- Go `createNode` (create.go, lines 292-372); `clusterName` is `args[0]`, the
one argument the command accepts. -/
def createNode (env : Env) (clusterName : String) : M Unit := do
  let s ← createNode_setup env
  let created ← attempt
    (createEC2Instance env s.ec2Svc s.region s.ami s.certName s.namePrefix s.securityGroupName)
  match created with
  | Except.error err => createNode_provisioningFailed env s.ec2Svc err
  | Except.ok (instanceID, elasticIP, certFilePath, keyPairName) =>
    createNode_provisioned env clusterName s instanceID elasticIP certFilePath keyPairName

/-- Modelled from the spec: the effect of `terraform.SetSecurityGroupRule`
(package `pkg/terraform`, not part of the sources at hand) on an existing
security group.  The spec has firewall rules added for the caller's IP on the
SSH port and the node API port "only if not already permitted": the ports for
which a rule is declared are those whose flag is false. -/
def SetSecurityGroupRule_ports (constants : Constants) (ipInTCP ipInHTTP : Bool) : List Nat :=
  (if !ipInTCP then [constants.SSHTCPPort] else []) ++
    (if !ipInHTTP then [constants.AvalanchegoAPIPort] else [])

/-! ## Sample environments -/

/-- Sample values for the constants of `pkg/constants`. -/
def sampleConstants : Constants :=
  { CertSuffix := "-kp.pem"
    EIPLimitErr := "AddressLimitExceeded"
    SSHTCPPort := 22
    AvalanchegoAPIPort := 9650
    AvalancheCLISuffix := "-avalanche-cli"
    AWSSecurityGroupSuffix := "-sg"
    AWSDefaultCredential := "default"
    AvalancheGoCompatibilityURL := "compatibility.json" }

/-- A fresh region: no key pair, security group, local certificate or cluster
config exists yet, the only deployed subnet is `subnetA`, and every
collaborator succeeds. -/
def freshEnv : Env :=
  { constants := sampleConstants
    ClusterConfigExists := false
    LoadClusterConfig := Except.error "no cluster config"
    WriteClusterConfigFile := fun _ => none
    CreateNodeCloudConfigFile := fun _ _ => none
    CheckCertInSSHDir := fun _ => Except.ok false
    GetSSHCertFilePath := fun certName => Except.ok ("/home/u/.ssh/" ++ certName)
    GetTempCertPath := fun certName => "/tmp/" ++ certName
    GetTerraformDir := "/home/u/.avalanche-cli/terraform"
    CreateTerraformDir := none
    GetAnsibleInventoryPath := fun clusterName => "/inventories/" ++ clusterName
    GetAnsibleDir := "/ansible"
    GetConfigPath := "/config.json"
    GetNodeInstanceDirPath := fun nodeID => "/nodes/" ++ nodeID
    SetupAnsibleEnv := none
    LoadSidecar := fun subnetName =>
      if subnetName = "subnetA" then Except.ok { RPCVersion := 28 }
      else Except.error "sidecar not found"
    CheckKeyPairExists := fun _ _ => Except.ok false
    CheckSecurityGroupExists := fun _ _ =>
      Except.ok (false, { GroupId := "", IpPermissions := [] })
    CheckUserIPInSg := fun sg ip port =>
      sg.IpPermissions.any (fun p => p.FromPort == port && p.IpRanges.contains ip)
    GetUbuntuAMIID := fun _ => Except.ok "ami-1"
    StopInstance := fun _ _ => none
    CredentialsGet := fun _ => none
    NewSession := fun _ => none
    TerraformCheckIsInstalled := none
    RemoveDirectory := fun _ => none
    InitConf := none
    SetCloudCredentials := fun _ => none
    SaveConf := fun _ => none
    RunTerraform := fun _ => Except.ok ("i-1", "1.2.3.4")
    GetInstanceID := fun _ => Except.ok "i-1"
    AnsibleCheckIsInstalled := none
    CreateAnsibleHostInventory := fun _ _ _ => none
    AnsibleSetup := fun _ => none
    RunAnsibleSetupNodePlaybook := fun _ _ _ _ => none
    RunAnsibleCopyStakingFilesPlaybook := fun _ _ _ => none
    ValidateSubnetNameAndGetChains := fun names =>
      if names = ["subnetA"] then Except.ok ["chainA"] else Except.error "subnet not found"
    GetLatestAvalancheGoByProtocolVersion := fun rpcVersion _ =>
      if rpcVersion = 28 then Except.ok "v1.10.9" else Except.error "no compatible version"
    UserCurrent := Except.ok "u"
    Curl := fun _ => Except.ok "ip=9.9.9.9"
    JsonUnmarshal := fun _ => Except.ok [("ip", some "9.9.9.9")]
    ParseIP := fun _ => true
    Chmod := fun _ _ => none
    Rename := fun _ _ => none
    SshAdd := fun _ => none }

/-- The world at the start of a run with no scripted answers. -/
def emptyWorld : World :=
  { listAnswers := [], stringAnswers := [], yesNoAnswers := [], log := [] }

/-- A cluster config with one key pair and one cluster of one node. -/
def sampleClusterConfig : ClusterConfig :=
  { KeyPair := some [("kp", "/home/u/.ssh/kp-kp.pem")]
    Clusters := some [("c1", ["i-0"])] }

/-- An environment whose cluster config file holds `sampleClusterConfig`. -/
def clusterEnv : Env :=
  { freshEnv with
    ClusterConfigExists := true
    LoadClusterConfig := Except.ok sampleClusterConfig }

/-! ## Reading the log -/

/-- Every event that the command `m` adds to the log satisfies `P`, and `m`
only ever adds to the log. -/
def Emits (P : Event → Prop) {α : Type} (m : M α) : Prop :=
  ∀ w r w', m w = some (r, w') → ∃ evs, w'.log = w.log ++ evs ∧ ∀ e ∈ evs, P e

/-- Events of the turns of the key-pair name loop that rejected the names `taken`. -/
def rejectedNameEvents (ec2Svc : EC2) : List String → List Event
  | [] => []
  | n :: rest =>
    [Event.CaptureString "Key Pair Name", Event.CheckKeyPairExists ec2Svc n,
      Event.PrintToUser ("Key Pair named " ++ n ++ " already exists")]
      ++ rejectedNameEvents ec2Svc rest

/-- The key pairs declared in the provisioning document by a sequence of
events, as pairs `(keyPairName, certName)`. -/
def declaredKeyPairs : List Event → List (String × String)
  | [] => []
  | Event.SetKeyPair keyPairName certName :: rest =>
    (keyPairName, certName) :: declaredKeyPairs rest
  | _ :: rest => declaredKeyPairs rest

/-- A region in which the default key pair of user `u` and the key pair `mine`
exist in the cloud, with no certificate in the SSH directory. -/
def cloudOnlyEnv : Env :=
  { freshEnv with
    CheckKeyPairExists := fun _ name =>
      Except.ok (name == "u-us-east-1-avalanche-cli" || name == "mine") }

/-- The messages printed by a sequence of events, in order. -/
def printed : List Event → List String
  | [] => []
  | Event.PrintToUser msg :: rest => msg :: printed rest
  | _ :: rest => printed rest

/-- The text `text` occurs in the message `msg`. -/
def containsText (msg text : String) : Prop := text.data <:+: msg.data

instance (msg text : String) : Decidable (containsText msg text) :=
  inferInstanceAs (Decidable (text.data <:+: msg.data))

/-- The message is one of the two with which `createNode` reports that
`createEC2Instance` failed. -/
def isFailureMessage (msg : String) : Bool :=
  msg == "Failed to create AWS cloud server" ||
    msg == "Failed to create AWS cloud server, please try creating again in a different region"

/-- The instance IDs that a sequence of events tried to stop. -/
def stopAttempts : List Event → List String
  | [] => []
  | Event.StopInstance _ instanceID :: rest => instanceID :: stopAttempts rest
  | _ :: rest => stopAttempts rest

/-- Answers of a user who picks region `us-east-1`, authorizes the access to
the cloud account and asks for the latest node software. -/
def defaultAnswers : World :=
  { listAnswers := [Except.ok "us-east-1", Except.ok "Use latest Avalanche Go Version"]
    stringAnswers := []
    yesNoAnswers := [Except.ok true]
    log := [] }

/-- A fresh region in which the provisioning tool hits the elastic-IP quota
after the instance was created. -/
def quotaEnv : Env :=
  { freshEnv with RunTerraform := fun _ => Except.error "AddressLimitExceeded" }

/-- A fresh region in which the provisioning tool fails before it has
recorded any instance, so that the instance ID cannot be read back. -/
def noInstanceEnv : Env :=
  { freshEnv with
    RunTerraform := fun _ => Except.error "terraform apply failed"
    GetInstanceID := fun _ => Except.error "no outputs found" }

/-- A fresh region in which the provisioning tool fails after the instance was
created and the instance then cannot be stopped. -/
def stopFailsEnv : Env :=
  { freshEnv with
    RunTerraform := fun _ => Except.error "terraform apply failed"
    StopInstance := fun _ _ => some "stop request rejected" }

/-- The subnets whose sidecar a sequence of events loaded. -/
def loadedSidecars : List Event → List String
  | [] => []
  | Event.LoadSidecar subnetName :: rest => subnetName :: loadedSidecars rest
  | _ :: rest => loadedSidecars rest

/-- The RPC versions for which a sequence of events asked the compatibility
lookup. -/
def compatibilityLookups : List Event → List Int
  | [] => []
  | Event.GetLatestAvalancheGoByProtocolVersion rpcVersion _ :: rest =>
    rpcVersion :: compatibilityLookups rest
  | _ :: rest => compatibilityLookups rest

/-- Events of the turns of the subnet name loop that rejected the names
`invalid`. -/
def invalidNameEvents : List String → List Event
  | [] => []
  | n :: rest =>
    [Event.CaptureString "Which Subnet would you like to use to choose the avalanche go version?",
      Event.ValidateSubnetNameAndGetChains [n],
      Event.PrintToUser ("no subnet named " ++ n ++ " found")]
      ++ invalidNameEvents rest

/-- A machine on which the only deployed subnet is named `latest`; its sidecar
records RPC version 28, for which the compatible node software is `v1.10.9`. -/
def latestSubnetEnv : Env :=
  { freshEnv with
    ValidateSubnetNameAndGetChains := fun names =>
      if names = ["latest"] then Except.ok ["chainL"] else Except.error "subnet not found"
    LoadSidecar := fun subnetName =>
      if subnetName = "latest" then Except.ok { RPCVersion := 28 }
      else Except.error "sidecar not found" }

/-- A region in which the security group exists already and permits the
caller's IP on the SSH port only. -/
def existingGroupEnv : Env :=
  { freshEnv with
    CheckSecurityGroupExists := fun _ _ =>
      Except.ok (true,
        { GroupId := "sg-1"
          IpPermissions := [{ FromPort := 22, ToPort := 22, IpRanges := ["9.9.9.9"] }] }) }

/-! ## Running commands -/

section lemmas
variable {α β : Type}

theorem run_pure (a : α) (w : World) : (pure a : M α) w = some (Except.ok a, w) := rfl

theorem run_bind (m : M α) (f : α → M β) (w : World) :
    (m >>= f) w =
      match m w with
      | none => none
      | some (Except.error e, w1) => some (Except.error e, w1)
      | some (Except.ok a, w1) => f a w1 := rfl

theorem run_bind_of_ok {m : M α} {f : α → M β} {w w1 : World} {a : α}
    (h : m w = some (Except.ok a, w1)) : (m >>= f) w = f a w1 := by
  simp [run_bind, h]

theorem run_bind_of_error {m : M α} {f : α → M β} {w w1 : World} {e : Err}
    (h : m w = some (Except.error e, w1)) : (m >>= f) w = some (Except.error e, w1) := by
  simp [run_bind, h]

theorem run_bind_eq_ok {m : M α} {f : α → M β} {w w' : World} {b : β} :
    (m >>= f) w = some (Except.ok b, w') ↔
      ∃ a w1, m w = some (Except.ok a, w1) ∧ f a w1 = some (Except.ok b, w') := by
  rw [run_bind]
  constructor
  · intro h
    split at h
    · simp at h
    · simp at h
    · next a w1 hm => exact ⟨a, w1, hm, h⟩
  · rintro ⟨a, w1, hm, hf⟩
    simp [hm, hf]

theorem run_emit (e : Event) (w : World) :
    emit e w = some (Except.ok (), { w with log := w.log ++ [e] }) := rfl

theorem run_outcome (r : Except Err α) (w : World) : outcome r w = some (r, w) := rfl

theorem run_call (e : Event) (r : Except Err α) (w : World) :
    call e r w = some (r, { w with log := w.log ++ [e] }) := by
  cases r <;> rfl

theorem run_PrintToUser (msg : String) (w : World) :
    PrintToUser msg w = some (Except.ok (), { w with log := w.log ++ [Event.PrintToUser msg] }) := rfl

theorem entriesGet_entriesSet_self (k : String) (v : α) (es : List (String × α)) :
    entriesGet k (entriesSet k v es) = some v := by
  induction es with
  | nil => simp [entriesSet, entriesGet]
  | cons p rest ih =>
    obtain ⟨k', v'⟩ := p
    by_cases hk : k' = k
    · simp [entriesSet, entriesGet, hk]
    · simp [entriesSet, entriesGet, hk, ih]

theorem entriesGet_entriesSet_other {k k' : String} (h : k' ≠ k) (v : α) (es : List (String × α)) :
    entriesGet k' (entriesSet k v es) = entriesGet k' es := by
  induction es with
  | nil => simp [entriesSet, entriesGet, Ne.symm h]
  | cons p rest ih =>
    obtain ⟨k1, v1⟩ := p
    by_cases hk : k1 = k
    · subst hk
      simp [entriesSet, entriesGet, Ne.symm h]
    · by_cases hk' : k1 = k'
      · subst hk'
        simp [entriesSet, entriesGet, hk]
      · simp [entriesSet, entriesGet, hk, hk', ih]

end lemmas

/-- What a successful `updateClusterConfig` read and wrote. -/
theorem updateClusterConfig_ok_inv {env : Env} {nodeID keyPairName certPath clusterName : String}
    {w w' : World}
    (h : updateClusterConfig env nodeID keyPairName certPath clusterName w
      = some (Except.ok (), w')) :
    ∃ (prior : ClusterConfig) (kp : List (String × String)) (cl : List (String × List String))
      (evs : List Event),
      ((env.ClusterConfigExists = true ∧ env.LoadClusterConfig = Except.ok prior) ∨
        (env.ClusterConfigExists = false ∧ prior = { KeyPair := none, Clusters := none })) ∧
      w'.log = w.log ++ evs ++ [Event.WriteClusterConfigFile { KeyPair := some kp, Clusters := some cl }] ∧
      (∀ c, Event.WriteClusterConfigFile c ∉ evs) ∧
      env.WriteClusterConfigFile { KeyPair := some kp, Clusters := some cl } = none ∧
      entriesGet clusterName cl = some ((prior.Clusters.get? clusterName).getD [] ++ [nodeID]) ∧
      (∀ other, other ≠ clusterName → entriesGet other cl = prior.Clusters.get? other) ∧
      (∀ p, prior.KeyPair.get? keyPairName = some p → entriesGet keyPairName kp = some p) ∧
      (prior.KeyPair.get? keyPairName = none → entriesGet keyPairName kp = some certPath) ∧
      (∀ other, other ≠ keyPairName → entriesGet other kp = prior.KeyPair.get? other) := by
  unfold updateClusterConfig at h
  rw [run_bind_eq_ok] at h
  obtain ⟨prior, w1, h1, h2⟩ := h
  rw [run_call] at h2
  simp only [Option.some.injEq, Prod.mk.injEq] at h2
  obtain ⟨hw, hlog⟩ := h2
  have hprior : ((env.ClusterConfigExists = true ∧ env.LoadClusterConfig = Except.ok prior) ∧
        w1.log = w.log ++ [Event.LoadClusterConfig]) ∨
      ((env.ClusterConfigExists = false ∧ prior = { KeyPair := none, Clusters := none }) ∧
        w1.log = w.log ++ []) := by
    cases hex : env.ClusterConfigExists
    · simp only [hex, Bool.false_eq_true, if_false, run_pure, Option.some.injEq,
        Prod.mk.injEq, Except.ok.injEq] at h1
      right
      simp [← h1.1, ← h1.2]
    · simp only [hex, if_true, run_call, Option.some.injEq, Prod.mk.injEq] at h1
      left
      simp [h1.1, ← h1.2]
  subst hlog
  have hwrite : ∀ c, errOnly (env.WriteClusterConfigFile c) = Except.ok () →
      env.WriteClusterConfigFile c = none := by
    intro c hc
    cases hx : env.WriteClusterConfigFile c with
    | none => rfl
    | some e => simp [hx, errOnly] at hc
  have hw2 := hwrite _ hw
  refine ⟨prior, _, _, w1.log.drop w.log.length, ?_, ?_, ?_, hw2, ?_⟩
  · rcases hprior with ⟨hp, -⟩ | ⟨hp, -⟩
    · exact Or.inl hp
    · exact Or.inr hp
  · rcases hprior with ⟨-, hl⟩ | ⟨-, hl⟩ <;> simp [hl]
  · rcases hprior with ⟨-, hl⟩ | ⟨-, hl⟩ <;> simp [hl]
  · clear hw hw2 hwrite hprior h1
    have hne : ∀ {a b : String}, a ≠ b → ¬ b = a := fun h1 h2 => h1 h2.symm
    refine ⟨?_, ?_, ?_, ?_, ?_⟩
    · cases hcl : prior.Clusters with
      | none => simp [GoMap.get?, entriesGet, entriesSet]
      | some m =>
        cases hg : entriesGet clusterName m <;>
          simp [GoMap.get?, hg, entriesGet_entriesSet_self]
    · intro other ho
      cases hcl : prior.Clusters with
      | none => simp [GoMap.get?, entriesGet, entriesSet, hne ho]
      | some m =>
        cases hg : entriesGet clusterName m <;>
          simp [GoMap.get?, hg, entriesGet_entriesSet_other ho]
    · intro p hp
      cases hkp : prior.KeyPair with
      | none => simp [GoMap.get?, hkp] at hp
      | some m =>
        simp only [GoMap.get?, hkp] at hp
        simp [hp]
    · intro hp
      cases hkp : prior.KeyPair with
      | none => simp [entriesGet, entriesSet]
      | some m =>
        simp only [GoMap.get?, hkp] at hp
        simp [hp, entriesGet_entriesSet_self]
    · intro other ho
      cases hkp : prior.KeyPair with
      | none => simp [GoMap.get?, entriesGet, entriesSet, hne ho]
      | some m =>
        cases hg : entriesGet keyPairName m <;>
          simp [GoMap.get?, hg, entriesGet_entriesSet_other ho]

/-- C1: `updateClusterConfig` is a monotonic append.  When it succeeds it has
written one cluster config, in which the node-ID list of `clusterName` is the
prior list (empty when the cluster or the whole config was absent) followed by
`nodeID`, so the prior list is a prefix of the new one, and the list of every
other cluster name is the prior one. -/
theorem updateClusterConfig_monotonic_append (env : Env)
    (nodeID keyPairName certPath clusterName : String) (w w' : World)
    (h : updateClusterConfig env nodeID keyPairName certPath clusterName w
      = some (Except.ok (), w')) :
    ∃ (prior written : ClusterConfig) (evs : List Event),
      ((env.ClusterConfigExists = true ∧ env.LoadClusterConfig = Except.ok prior) ∨
        (env.ClusterConfigExists = false ∧ prior = { KeyPair := none, Clusters := none })) ∧
      w'.log = w.log ++ evs ++ [Event.WriteClusterConfigFile written] ∧
      (∀ c, Event.WriteClusterConfigFile c ∉ evs) ∧
      env.WriteClusterConfigFile written = none ∧
      written.Clusters.get? clusterName
        = some ((prior.Clusters.get? clusterName).getD [] ++ [nodeID]) ∧
      (prior.Clusters.get? clusterName).getD [] <+: (written.Clusters.get? clusterName).getD [] ∧
      ∀ other, other ≠ clusterName → written.Clusters.get? other = prior.Clusters.get? other := by
  obtain ⟨prior, kp, cl, evs, hp, hlog, hevs, hwr, hc1, hc2, -, -, -⟩ :=
    updateClusterConfig_ok_inv h
  refine ⟨prior, { KeyPair := some kp, Clusters := some cl }, evs, hp, hlog, hevs, hwr, ?_, ?_, ?_⟩
  · simpa [GoMap.get?] using hc1
  · simp [GoMap.get?, hc1]
  · intro other ho
    simpa [GoMap.get?] using hc2 other ho

/-- C1, at a concrete input: adding node `i-1` to cluster `c1` of
`sampleClusterConfig`, whose list is `[i-0]`. -/
theorem updateClusterConfig_monotonic_append_witness :
    ∃ (prior written : ClusterConfig) (evs : List Event),
      ((clusterEnv.ClusterConfigExists = true ∧ clusterEnv.LoadClusterConfig = Except.ok prior) ∨
        (clusterEnv.ClusterConfigExists = false ∧
          prior = { KeyPair := none, Clusters := none })) ∧
      [Event.LoadClusterConfig, Event.WriteClusterConfigFile
          { KeyPair := some [("kp", "/home/u/.ssh/kp-kp.pem")],
            Clusters := some [("c1", ["i-0", "i-1"])] }]
        = emptyWorld.log ++ evs ++ [Event.WriteClusterConfigFile written] ∧
      (∀ c, Event.WriteClusterConfigFile c ∉ evs) ∧
      clusterEnv.WriteClusterConfigFile written = none ∧
      written.Clusters.get? "c1" = some ((prior.Clusters.get? "c1").getD [] ++ ["i-1"]) ∧
      (prior.Clusters.get? "c1").getD [] <+: (written.Clusters.get? "c1").getD [] ∧
      ∀ other, other ≠ "c1" → written.Clusters.get? other = prior.Clusters.get? other :=
  updateClusterConfig_monotonic_append clusterEnv "i-1" "kp" "/other" "c1" emptyWorld
    { emptyWorld with
      log := [Event.LoadClusterConfig, Event.WriteClusterConfigFile
        { KeyPair := some [("kp", "/home/u/.ssh/kp-kp.pem")],
          Clusters := some [("c1", ["i-0", "i-1"])] }] }
    rfl

/-- C2: `updateClusterConfig` keeps each key-pair name on one certificate
path.  In the config it writes, a key-pair name that was already a key keeps
its path whatever `certPath` is, a new `keyPairName` is registered with
`certPath`, and every other key-pair entry is the prior one. -/
theorem updateClusterConfig_keyPair_registered_once (env : Env)
    (nodeID keyPairName certPath clusterName : String) (w w' : World)
    (h : updateClusterConfig env nodeID keyPairName certPath clusterName w
      = some (Except.ok (), w')) :
    ∃ (prior written : ClusterConfig) (evs : List Event),
      ((env.ClusterConfigExists = true ∧ env.LoadClusterConfig = Except.ok prior) ∨
        (env.ClusterConfigExists = false ∧ prior = { KeyPair := none, Clusters := none })) ∧
      w'.log = w.log ++ evs ++ [Event.WriteClusterConfigFile written] ∧
      (∀ c, Event.WriteClusterConfigFile c ∉ evs) ∧
      (∀ p, prior.KeyPair.get? keyPairName = some p →
        written.KeyPair.get? keyPairName = some p) ∧
      (prior.KeyPair.get? keyPairName = none →
        written.KeyPair.get? keyPairName = some certPath) ∧
      ∀ other, other ≠ keyPairName → written.KeyPair.get? other = prior.KeyPair.get? other := by
  obtain ⟨prior, kp, cl, evs, hp, hlog, hevs, -, -, -, hk1, hk2, hk3⟩ :=
    updateClusterConfig_ok_inv h
  refine ⟨prior, { KeyPair := some kp, Clusters := some cl }, evs, hp, hlog, hevs, ?_, ?_, ?_⟩
  · intro p hpp
    simpa [GoMap.get?] using hk1 p hpp
  · intro hpp
    simpa [GoMap.get?] using hk2 hpp
  · intro other ho
    simpa [GoMap.get?] using hk3 other ho

/-- C2, at a concrete input: key pair `kp` of `sampleClusterConfig` is passed
again with another certificate path, for a node of the new cluster `c2`. -/
theorem updateClusterConfig_keyPair_registered_once_witness :
    ∃ (prior written : ClusterConfig) (evs : List Event),
      ((clusterEnv.ClusterConfigExists = true ∧ clusterEnv.LoadClusterConfig = Except.ok prior) ∨
        (clusterEnv.ClusterConfigExists = false ∧
          prior = { KeyPair := none, Clusters := none })) ∧
      [Event.LoadClusterConfig, Event.WriteClusterConfigFile
          { KeyPair := some [("kp", "/home/u/.ssh/kp-kp.pem")],
            Clusters := some [("c1", ["i-0"]), ("c2", ["i-7"])] }]
        = emptyWorld.log ++ evs ++ [Event.WriteClusterConfigFile written] ∧
      (∀ c, Event.WriteClusterConfigFile c ∉ evs) ∧
      (∀ p, prior.KeyPair.get? "kp" = some p → written.KeyPair.get? "kp" = some p) ∧
      (prior.KeyPair.get? "kp" = none → written.KeyPair.get? "kp" = some "/other") ∧
      ∀ other, other ≠ "kp" → written.KeyPair.get? other = prior.KeyPair.get? other :=
  updateClusterConfig_keyPair_registered_once clusterEnv "i-7" "kp" "/other" "c2" emptyWorld
    { emptyWorld with
      log := [Event.LoadClusterConfig, Event.WriteClusterConfigFile
        { KeyPair := some [("kp", "/home/u/.ssh/kp-kp.pem")],
          Clusters := some [("c1", ["i-0"]), ("c2", ["i-7"])] }] }
    rfl

/-! ## Key-pair resolution -/

theorem getNewKeyPairNameLoop_fresh (env : Env) (ec2Svc : EC2) (fresh : String)
    (rest : List (Except Err String))
    (hfresh : env.CheckKeyPairExists ec2Svc fresh = Except.ok false) :
    ∀ (taken : List String) (fuel : Nat) (la : List (Except Err String))
      (ya : List (Except Err Bool)) (lg : List Event),
      (∀ n ∈ taken, env.CheckKeyPairExists ec2Svc n = Except.ok true) →
      taken.length < fuel →
      getNewKeyPairNameLoop env ec2Svc fuel
          ⟨la, taken.map Except.ok ++ Except.ok fresh :: rest, ya, lg⟩
        = some (Except.ok fresh,
            ⟨la, rest, ya, lg ++ (rejectedNameEvents ec2Svc taken ++
              [Event.CaptureString "Key Pair Name", Event.CheckKeyPairExists ec2Svc fresh])⟩) := by
  intro taken
  induction taken with
  | nil =>
    intro fuel la ya lg _ hfuel
    obtain ⟨fuel, rfl⟩ : ∃ k, fuel = k + 1 := ⟨fuel - 1, by omega⟩
    simp [getNewKeyPairNameLoop, run_bind, CaptureString, run_call, hfresh, run_pure,
      rejectedNameEvents]
  | cons n taken ih =>
    intro fuel la ya lg htaken hfuel
    obtain ⟨fuel, rfl⟩ : ∃ k, fuel = k + 1 := ⟨fuel - 1, by omega⟩
    have hn := htaken n (List.mem_cons_self _ _)
    simp only [getNewKeyPairNameLoop, run_bind, CaptureString, List.map_cons, List.cons_append,
      run_call, hn, run_PrintToUser]
    simp only [Bool.not_true, Bool.false_eq_true, if_false, run_bind, run_PrintToUser]
    rw [ih fuel _ _ _ (fun m hm => htaken m (List.mem_cons_of_mem _ hm)) (by simpa using hfuel)]
    simp [rejectedNameEvents]

theorem declaredKeyPairs_append (xs ys : List Event) :
    declaredKeyPairs (xs ++ ys) = declaredKeyPairs xs ++ declaredKeyPairs ys := by
  induction xs with
  | nil => rfl
  | cons e xs ih => cases e <;> simp [declaredKeyPairs, ih]

theorem declaredKeyPairs_rejectedNameEvents (ec2Svc : EC2) (taken : List String) :
    declaredKeyPairs (rejectedNameEvents ec2Svc taken) = [] := by
  induction taken with
  | nil => rfl
  | cons n taken ih => simp [rejectedNameEvents, declaredKeyPairs, ih]

theorem promptKeyPairName_fresh (env : Env) (ec2Svc : EC2) (taken : List String) (fresh : String)
    (rest : List (Except Err String)) (la : List (Except Err String))
    (ya : List (Except Err Bool)) (lg : List Event)
    (htaken : ∀ n ∈ taken, env.CheckKeyPairExists ec2Svc n = Except.ok true)
    (hfresh : env.CheckKeyPairExists ec2Svc fresh = Except.ok false) :
    promptKeyPairName env ec2Svc ⟨la, taken.map Except.ok ++ Except.ok fresh :: rest, ya, lg⟩
      = some (Except.ok (fresh ++ env.constants.CertSuffix, fresh),
          ⟨la, rest, ya, lg ++ ([Event.PrintToUser "What do you want to name your key pair?"] ++
              (rejectedNameEvents ec2Svc taken ++
                [Event.CaptureString "Key Pair Name",
                  Event.CheckKeyPairExists ec2Svc fresh]))⟩) := by
  simp only [promptKeyPairName, getNewKeyPairName, run_bind, run_PrintToUser]
  rw [getNewKeyPairNameLoop_fresh env ec2Svc fresh rest hfresh taken _ _ _ _ htaken
    (by simp; omega)]
  simp [run_pure]

/-- C3: key-pair resolution takes one of three outcomes.  When the two checks
return without error (and, where a fresh name is prompted for, the user's
answers are the names `taken`, which exist in the cloud, followed by `fresh`,
which does not): both exist gives reuse as is, with `useExistingKeyPair` true,
the names unchanged and no key pair declared; neither exists gives the default
names with the key pair declared under them; exactly one exists gives the
prompted name `fresh` with certificate name `fresh ++ CertSuffix`, declared as
such.  `useExistingKeyPair` is true exactly when both exist. -/
theorem createEC2Instance_keyPair_three_outcomes (env : Env) (ec2Svc : EC2)
    (certName keyPairName : String) (w : World) (keyPairExists certInSSHDir : Bool)
    (taken : List String) (fresh : String) (rest : List (Except Err String))
    (hk : env.CheckKeyPairExists ec2Svc keyPairName = Except.ok keyPairExists)
    (hc : env.CheckCertInSSHDir certName = Except.ok certInSSHDir)
    (hprompt : keyPairExists ≠ certInSSHDir →
      w.stringAnswers = taken.map Except.ok ++ Except.ok fresh :: rest ∧
      (∀ n ∈ taken, env.CheckKeyPairExists ec2Svc n = Except.ok true) ∧
      env.CheckKeyPairExists ec2Svc fresh = Except.ok false) :
    ∃ (useExistingKeyPair : Bool) (certName' keyPairName' : String) (w' : World)
      (evs : List Event),
      createEC2Instance_keyPair env ec2Svc certName keyPairName w
        = some (Except.ok (useExistingKeyPair, certName', keyPairName'), w') ∧
      w'.log = w.log ++ evs ∧
      (useExistingKeyPair = true ↔ (keyPairExists = true ∧ certInSSHDir = true)) ∧
      (keyPairExists = true ∧ certInSSHDir = true →
        certName' = certName ∧ keyPairName' = keyPairName ∧ declaredKeyPairs evs = []) ∧
      (keyPairExists = false ∧ certInSSHDir = false →
        certName' = certName ∧ keyPairName' = keyPairName ∧
        declaredKeyPairs evs = [(keyPairName, certName)]) ∧
      (keyPairExists ≠ certInSSHDir →
        keyPairName' = fresh ∧ certName' = fresh ++ env.constants.CertSuffix ∧
        declaredKeyPairs evs = [(fresh, fresh ++ env.constants.CertSuffix)]) := by
  cases keyPairExists <;> cases certInSSHDir
  · refine ⟨false, certName, keyPairName,
      { w with log := w.log ++ [Event.CheckKeyPairExists ec2Svc keyPairName,
        Event.CheckCertInSSHDir certName,
        Event.PrintToUser ("Creating new key pair " ++ keyPairName ++ " in AWS"),
        Event.SetKeyPair keyPairName certName] }, _, ?_, rfl, ?_⟩
    · simp only [createEC2Instance_keyPair, run_bind, run_call, hk, hc, Bool.not_false, if_true,
        run_PrintToUser, run_emit, run_pure, List.append_assoc, List.singleton_append,
        List.cons_append, List.nil_append]
    · simp [declaredKeyPairs]
  · obtain ⟨hans, htaken, hfresh⟩ := hprompt (by decide)
    refine ⟨false, fresh ++ env.constants.CertSuffix, fresh,
      { w with
        stringAnswers := rest
        log := w.log ++ ([Event.CheckKeyPairExists ec2Svc keyPairName,
          Event.CheckCertInSSHDir certName,
          Event.PrintToUser ("Default Key Pair named " ++ keyPairName ++ " already exists on your .ssh directory but not on AWS"),
          Event.PrintToUser ("We need to create a new Key Pair in AWS as we can't find Key Pair named " ++ keyPairName ++ " in AWS"),
          Event.PrintToUser "What do you want to name your key pair?"] ++
          rejectedNameEvents ec2Svc taken ++
          [Event.CaptureString "Key Pair Name", Event.CheckKeyPairExists ec2Svc fresh,
            Event.SetKeyPair fresh (fresh ++ env.constants.CertSuffix)]) }, _, ?_, rfl, ?_⟩
    · simp only [createEC2Instance_keyPair, run_bind, run_call, hk, hc, Bool.not_false, if_true,
        Bool.not_true, Bool.false_eq_true, if_false, run_PrintToUser, hans]
      rw [promptKeyPairName_fresh env ec2Svc taken fresh rest _ _ _ htaken hfresh]
      simp only [run_emit, run_bind, run_pure, List.append_assoc, List.singleton_append,
        List.cons_append, List.nil_append]
    · simp [declaredKeyPairs, declaredKeyPairs_append, declaredKeyPairs_rejectedNameEvents]
  · obtain ⟨hans, htaken, hfresh⟩ := hprompt (by decide)
    refine ⟨false, fresh ++ env.constants.CertSuffix, fresh,
      { w with
        stringAnswers := rest
        log := w.log ++ ([Event.CheckKeyPairExists ec2Svc keyPairName,
          Event.CheckCertInSSHDir certName,
          Event.PrintToUser ("Default Key Pair named " ++ keyPairName ++ " already exists in AWS"),
          Event.PrintToUser ("We need to create a new Key Pair in AWS as we can't find Key Pair named " ++ keyPairName ++ " in your .ssh directory"),
          Event.PrintToUser "What do you want to name your key pair?"] ++
          rejectedNameEvents ec2Svc taken ++
          [Event.CaptureString "Key Pair Name", Event.CheckKeyPairExists ec2Svc fresh,
            Event.SetKeyPair fresh (fresh ++ env.constants.CertSuffix)]) }, _, ?_, rfl, ?_⟩
    · simp only [createEC2Instance_keyPair, run_bind, run_call, hk, hc, Bool.not_false, if_true,
        Bool.not_true, Bool.false_eq_true, if_false, run_PrintToUser, hans]
      rw [promptKeyPairName_fresh env ec2Svc taken fresh rest _ _ _ htaken hfresh]
      simp only [run_emit, run_bind, run_pure, List.append_assoc, List.singleton_append,
        List.cons_append, List.nil_append]
    · simp [declaredKeyPairs, declaredKeyPairs_append, declaredKeyPairs_rejectedNameEvents]
  · refine ⟨true, certName, keyPairName,
      { w with log := w.log ++ [Event.CheckKeyPairExists ec2Svc keyPairName,
        Event.CheckCertInSSHDir certName,
        Event.PrintToUser ("Using existing key pair " ++ keyPairName ++ " in AWS")] },
      _, ?_, rfl, ?_⟩
    · simp only [createEC2Instance_keyPair, run_bind, run_call, hk, hc, Bool.not_true,
        Bool.false_eq_true, if_false, if_true, run_PrintToUser, run_pure, List.append_assoc,
        List.singleton_append, List.cons_append, List.nil_append]
    · simp [declaredKeyPairs]

/-- C3, at a concrete input: the default key pair exists in the cloud without
a local certificate, the user first answers `mine`, which exists too, then
`fresh`. -/
theorem createEC2Instance_keyPair_three_outcomes_witness :
    ∃ w', createEC2Instance_keyPair cloudOnlyEnv ⟨"us-east-1"⟩
        "u-us-east-1-avalanche-cli-us-east-1-kp.pem" "u-us-east-1-avalanche-cli"
        ⟨[], [Except.ok "mine", Except.ok "fresh"], [], []⟩
      = some (Except.ok (false, "fresh-kp.pem", "fresh"), w') ∧
      declaredKeyPairs w'.log = [("fresh", "fresh-kp.pem")] := by
  obtain ⟨use, c, n, w', evs, hrun, hlog, huse, -, -, hone⟩ :=
    createEC2Instance_keyPair_three_outcomes cloudOnlyEnv ⟨"us-east-1"⟩
      "u-us-east-1-avalanche-cli-us-east-1-kp.pem" "u-us-east-1-avalanche-cli"
      ⟨[], [Except.ok "mine", Except.ok "fresh"], [], []⟩ true false ["mine"] "fresh" []
      rfl rfl
      (fun _ => ⟨rfl, fun n hn => by rw [List.mem_singleton.1 hn]; rfl, rfl⟩)
  obtain ⟨hn, hc, hd⟩ := hone (by decide)
  have hu : use = false := by
    cases use
    · rfl
    · exact absurd (huse.1 rfl).2 (by decide)
  subst hn hc hu
  refine ⟨w', hrun, ?_⟩
  rw [hlog]
  exact hd

/-! ## What a command adds to the log -/

section emits
variable {α β : Type}

theorem emits_pure (P : Event → Prop) (a : α) : Emits P (pure a : M α) := by
  intro w r w' h
  simp only [run_pure, Option.some.injEq, Prod.mk.injEq] at h
  exact ⟨[], by simp [← h.2], by simp⟩

theorem emits_outcome (P : Event → Prop) (r : Except Err α) : Emits P (outcome r) := by
  intro w r' w' h
  simp only [run_outcome, Option.some.injEq, Prod.mk.injEq] at h
  exact ⟨[], by simp [← h.2], by simp⟩

theorem emits_emit {P : Event → Prop} {e : Event} (he : P e) : Emits P (emit e) := by
  intro w r w' h
  simp only [run_emit, Option.some.injEq, Prod.mk.injEq] at h
  exact ⟨[e], by simp [← h.2], by simpa using he⟩

theorem emits_PrintToUser {P : Event → Prop} {msg : String} (he : P (Event.PrintToUser msg)) :
    Emits P (PrintToUser msg) := emits_emit he

theorem emits_call {P : Event → Prop} {e : Event} (he : P e) (r : Except Err α) :
    Emits P (call e r) := by
  intro w r' w' h
  simp only [run_call, Option.some.injEq, Prod.mk.injEq] at h
  exact ⟨[e], by simp [← h.2], by simpa using he⟩

theorem emits_bind {P : Event → Prop} {m : M α} {f : α → M β} (hm : Emits P m)
    (hf : ∀ a, Emits P (f a)) : Emits P (m >>= f) := by
  intro w r w' h
  rw [run_bind] at h
  split at h
  · simp at h
  · next e w1 hmw =>
    simp only [Option.some.injEq, Prod.mk.injEq] at h
    obtain ⟨evs, hl, hp⟩ := hm w _ w1 hmw
    exact ⟨evs, by rw [← h.2, hl], hp⟩
  · next a w1 hmw =>
    obtain ⟨evs1, hl1, hp1⟩ := hm w _ w1 hmw
    obtain ⟨evs2, hl2, hp2⟩ := hf a w1 r w' h
    refine ⟨evs1 ++ evs2, by rw [hl2, hl1, List.append_assoc], ?_⟩
    intro e he
    rcases List.mem_append.1 he with h1 | h2
    · exact hp1 e h1
    · exact hp2 e h2

theorem emits_attempt {P : Event → Prop} {m : M α} (hm : Emits P m) : Emits P (attempt m) := by
  intro w r w' h
  unfold attempt at h
  split at h
  · simp at h
  · next r1 w1 hmw =>
    simp only [Option.some.injEq, Prod.mk.injEq] at h
    obtain ⟨evs, hl, hp⟩ := hm w _ w1 hmw
    exact ⟨evs, by rw [← h.2, hl], hp⟩

theorem emits_CaptureString {P : Event → Prop} {txt : String}
    (he : P (Event.CaptureString txt)) : Emits P (CaptureString txt) := by
  intro w r w' h
  unfold CaptureString at h
  split at h
  · simp at h
  · simp only [Option.some.injEq, Prod.mk.injEq] at h
    exact ⟨[Event.CaptureString txt], by simp [← h.2], by simpa using he⟩

theorem emits_CaptureList {P : Event → Prop} {txt : String} {options : List String}
    (he : P (Event.CaptureList txt options)) : Emits P (CaptureList txt options) := by
  intro w r w' h
  unfold CaptureList at h
  split at h
  · simp at h
  · simp only [Option.some.injEq, Prod.mk.injEq] at h
    exact ⟨[Event.CaptureList txt options], by simp [← h.2], by simpa using he⟩

theorem emits_CaptureYesNo {P : Event → Prop} {txt : String}
    (he : P (Event.CaptureYesNo txt)) : Emits P (CaptureYesNo txt) := by
  intro w r w' h
  unfold CaptureYesNo at h
  split at h
  · simp at h
  · simp only [Option.some.injEq, Prod.mk.injEq] at h
    exact ⟨[Event.CaptureYesNo txt], by simp [← h.2], by simpa using he⟩

theorem emits_ite {P : Event → Prop} {c : Prop} [Decidable c] {m1 m2 : M α}
    (h1 : Emits P m1) (h2 : Emits P m2) : Emits P (if c then m1 else m2) := by
  split
  · exact h1
  · exact h2

theorem emits_fueled {P : Event → Prop} {loop : Nat → M α} (h : ∀ fuel, Emits P (loop fuel)) :
    Emits P (fun w => loop (w.stringAnswers.length + 1) w) := by
  intro w r w' hrun
  exact h _ w r w' hrun

theorem emits_mono {P Q : Event → Prop} {m : M α} (hPQ : ∀ e, P e → Q e) (h : Emits P m) :
    Emits Q m := by
  intro w r w' hrun
  obtain ⟨evs, hl, hp⟩ := h w r w' hrun
  exact ⟨evs, hl, fun e he => hPQ e (hp e he)⟩

end emits

theorem declaredKeyPairs_eq_nil {evs : List Event}
    (h : ∀ e ∈ evs, ∀ k c, e ≠ Event.SetKeyPair k c) : declaredKeyPairs evs = [] := by
  induction evs with
  | nil => rfl
  | cons e evs ih =>
    have he := h e (List.mem_cons_self _ _)
    have ih' := ih (fun e' he' => h e' (List.mem_cons_of_mem _ he'))
    cases e <;> simp_all [declaredKeyPairs]

theorem emits_getNewKeyPairNameLoop (env : Env) (ec2Svc : EC2) (fuel : Nat) :
    Emits (fun e => ∀ k c, e ≠ Event.SetKeyPair k c) (getNewKeyPairNameLoop env ec2Svc fuel) := by
  induction fuel with
  | zero =>
    intro w r w' h
    simp [getNewKeyPairNameLoop] at h
  | succ fuel ih =>
    unfold getNewKeyPairNameLoop
    refine emits_bind (emits_CaptureString (by simp)) fun name => ?_
    refine emits_bind (emits_call (by simp) _) fun ex => ?_
    refine emits_ite (emits_pure _ _) ?_
    exact emits_bind (emits_PrintToUser (by simp)) fun _ => ih

theorem emits_promptKeyPairName (env : Env) (ec2Svc : EC2) :
    Emits (fun e => ∀ k c, e ≠ Event.SetKeyPair k c) (promptKeyPairName env ec2Svc) := by
  unfold promptKeyPairName getNewKeyPairName
  refine emits_bind ?_ fun _ => emits_pure _ _
  exact emits_bind (emits_PrintToUser (by simp)) fun _ =>
    emits_fueled (emits_getNewKeyPairNameLoop env ec2Svc)

theorem emits_getIPAddress (env : Env) :
    Emits (fun e => ∀ k c, e ≠ Event.SetKeyPair k c) (getIPAddress env) := by
  unfold getIPAddress
  refine emits_bind (emits_call (by simp) _) fun out => ?_
  refine emits_bind (emits_outcome _ _) fun res => ?_
  split
  · exact emits_ite (emits_outcome _ _) (emits_pure _ _)
  · exact emits_outcome _ _

theorem emits_createEC2Instance_securityGroup (env : Env) (ec2Svc : EC2) (sgName : String) :
    Emits (fun e => ∀ k c, e ≠ Event.SetKeyPair k c)
      (createEC2Instance_securityGroup env ec2Svc sgName) := by
  unfold createEC2Instance_securityGroup
  refine emits_bind (emits_call (by simp) _) fun p => ?_
  obtain ⟨ex, sg⟩ := p
  refine emits_bind (emits_getIPAddress env) fun ip => ?_
  refine emits_ite ?_ ?_
  · exact emits_bind (emits_PrintToUser (by simp)) fun _ => emits_emit (by simp)
  · exact emits_bind (emits_PrintToUser (by simp)) fun _ => emits_emit (by simp)

/-! ## Successful runs, step by step -/

theorem errOnly_eq_ok {r : Option Err} {u : Unit} : errOnly r = Except.ok u ↔ r = none := by
  cases r <;> simp [errOnly]

theorem call_eq_ok {α : Type} {e : Event} {r : Except Err α} {w w1 : World} {a : α} :
    call e r w = some (Except.ok a, w1) ↔
      r = Except.ok a ∧ w1 = { w with log := w.log ++ [e] } := by
  rw [run_call]
  simp [eq_comm]

theorem emit_eq_ok {e : Event} {w w1 : World} {u : Unit} :
    emit e w = some (Except.ok u, w1) ↔ w1 = { w with log := w.log ++ [e] } := by
  rw [run_emit]
  simp [eq_comm]

theorem PrintToUser_eq_ok {msg : String} {w w1 : World} {u : Unit} :
    PrintToUser msg w = some (Except.ok u, w1) ↔
      w1 = { w with log := w.log ++ [Event.PrintToUser msg] } := emit_eq_ok

theorem pure_eq_ok {α : Type} {a b : α} {w w1 : World} :
    (pure a : M α) w = some (Except.ok b, w1) ↔ a = b ∧ w1 = w := by
  rw [run_pure]
  simp [eq_comm]

theorem createEC2Instance_keyPair_inv {env : Env} {ec2Svc : EC2} {certName keyPairName : String}
    {w w1 : World} {use : Bool} {c n : String}
    (h : createEC2Instance_keyPair env ec2Svc certName keyPairName w
      = some (Except.ok (use, c, n), w1)) :
    ∃ evs, w1.log = w.log ++ evs ∧
      ((use = true ∧ c = certName ∧ n = keyPairName ∧
          env.CheckKeyPairExists ec2Svc keyPairName = Except.ok true ∧
          env.CheckCertInSSHDir certName = Except.ok true ∧ declaredKeyPairs evs = []) ∨
        (use = false ∧ declaredKeyPairs evs = [(n, c)])) := by
  unfold createEC2Instance_keyPair at h
  rw [run_bind_eq_ok] at h
  obtain ⟨kpe, wa, ha, h⟩ := h
  rw [run_bind_eq_ok] at h
  obtain ⟨cin, wb, hb, h⟩ := h
  rw [call_eq_ok] at ha hb
  obtain ⟨hk, rfl⟩ := ha
  obtain ⟨hc, rfl⟩ := hb
  cases kpe <;> cases cin
  · simp only [Bool.not_false, if_true, run_bind_eq_ok, PrintToUser_eq_ok, emit_eq_ok,
      pure_eq_ok] at h
    obtain ⟨_, _, rfl, _, _, rfl, hres, rfl⟩ := h
    simp only [Prod.mk.injEq] at hres
    obtain ⟨rfl, rfl, rfl⟩ := hres
    exact ⟨_, by simp only [List.append_assoc]; rfl, Or.inr ⟨rfl, by simp [declaredKeyPairs]⟩⟩
  · simp only [Bool.not_false, Bool.not_true, Bool.false_eq_true, if_true, if_false,
      run_bind_eq_ok, PrintToUser_eq_ok, emit_eq_ok, pure_eq_ok] at h
    obtain ⟨_, _, rfl, _, _, rfl, ⟨c', n'⟩, w4, hp, _, _, rfl, hres, rfl⟩ := h
    simp only [Prod.mk.injEq] at hres
    obtain ⟨rfl, rfl, rfl⟩ := hres
    obtain ⟨evs, hl, hev⟩ := emits_promptKeyPairName env ec2Svc _ _ _ hp
    refine ⟨_, by simp only [hl, List.append_assoc]; rfl, Or.inr ⟨rfl, ?_⟩⟩
    simp [declaredKeyPairs, declaredKeyPairs_append, declaredKeyPairs_eq_nil hev]
  · simp only [Bool.not_false, Bool.not_true, Bool.false_eq_true, if_true, if_false,
      run_bind_eq_ok, PrintToUser_eq_ok, emit_eq_ok, pure_eq_ok] at h
    obtain ⟨_, _, rfl, _, _, rfl, ⟨c', n'⟩, w4, hp, _, _, rfl, hres, rfl⟩ := h
    simp only [Prod.mk.injEq] at hres
    obtain ⟨rfl, rfl, rfl⟩ := hres
    obtain ⟨evs, hl, hev⟩ := emits_promptKeyPairName env ec2Svc _ _ _ hp
    refine ⟨_, by simp only [hl, List.append_assoc]; rfl, Or.inr ⟨rfl, ?_⟩⟩
    simp [declaredKeyPairs, declaredKeyPairs_append, declaredKeyPairs_eq_nil hev]
  · simp only [Bool.not_true, Bool.false_eq_true, if_true, if_false,
      run_bind_eq_ok, PrintToUser_eq_ok, emit_eq_ok, pure_eq_ok] at h
    obtain ⟨_, _, rfl, hres, rfl⟩ := h
    simp only [Prod.mk.injEq] at hres
    obtain ⟨rfl, rfl, rfl⟩ := hres
    exact ⟨_, by simp only [List.append_assoc]; rfl,
      Or.inl ⟨rfl, rfl, rfl, hk, hc, by simp [declaredKeyPairs]⟩⟩

theorem emits_addCertToSSH (env : Env) (certName : String) :
    Emits (fun e => ∀ k c, e ≠ Event.SetKeyPair k c) (addCertToSSH env certName) := by
  unfold addCertToSSH
  refine emits_bind (emits_call (by simp) _) fun _ => ?_
  refine emits_bind (emits_call (by simp) _) fun p => ?_
  exact emits_bind (emits_call (by simp) _) fun _ => emits_call (by simp) _

/-- What a successful `addCertToSSH` did: the downloaded certificate was made
read-only, moved to its path in the SSH directory and added to the SSH agent,
each step without error. -/
theorem addCertToSSH_ok_inv {env : Env} {certName : String} {w1 w2 : World} {u : Unit}
    (h : addCertToSSH env certName w1 = some (Except.ok u, w2)) :
    ∃ (certFilePath : String),
      env.Chmod (env.GetTempCertPath certName) 0o400 = none ∧
      env.GetSSHCertFilePath certName = Except.ok certFilePath ∧
      env.Rename (env.GetTempCertPath certName) certFilePath = none ∧
      env.SshAdd certFilePath = none ∧
      w2.log = w1.log ++
        [Event.Chmod (env.GetTempCertPath certName) 0o400,
          Event.GetSSHCertFilePath certName,
          Event.Rename (env.GetTempCertPath certName) certFilePath,
          Event.SshAdd certFilePath] := by
  unfold addCertToSSH at h
  simp only [run_bind_eq_ok, call_eq_ok, errOnly_eq_ok] at h
  obtain ⟨_, _, ⟨hchmod, rfl⟩, p, _, ⟨hpath, rfl⟩, _, _, ⟨hrename, rfl⟩, hadd, rfl⟩ := h
  exact ⟨p, hchmod, hpath, hrename, hadd, by simp⟩

/-- C4: `createEC2Instance` never succeeds with a key pair that lacks a
matching local certificate.  On every successful return the certificate path
returned is the SSH-directory path of a certificate name `certName'`, and
either the key pair was reused (it exists in the cloud, the certificate named
`certName` was found in the SSH directory, and no key pair is declared), or the
returned key pair was declared in the provisioning document together with
`certName'` and `addCertToSSH` succeeded for `certName'` during the run: after
the provisioning tool had run, the downloaded certificate `certName'` was made
read-only, moved to the returned path in the SSH directory and added to the SSH
agent, each step without error, and these are the last things the run did
before it read the path back. -/
theorem createEC2Instance_key_pair_has_certificate (env : Env) (ec2Svc : EC2)
    (region ami certName keyPairName securityGroupName : String) (w w' : World)
    (instanceID elasticIP sshCertPath keyPairName' : String)
    (h : createEC2Instance env ec2Svc region ami certName keyPairName securityGroupName w
      = some (Except.ok (instanceID, elasticIP, sshCertPath, keyPairName'), w')) :
    ∃ (certName' : String) (evs : List Event),
      w'.log = w.log ++ evs ∧
      env.GetSSHCertFilePath certName' = Except.ok sshCertPath ∧
      ((keyPairName' = keyPairName ∧ certName' = certName ∧
          env.CheckKeyPairExists ec2Svc keyPairName = Except.ok true ∧
          env.CheckCertInSSHDir certName = Except.ok true ∧
          declaredKeyPairs evs = [] ∧
          Event.SetupInstance securityGroupName true keyPairName' ami ∈ evs) ∨
        (declaredKeyPairs evs = [(keyPairName', certName')] ∧
          Event.SetupInstance securityGroupName false keyPairName' ami ∈ evs ∧
          (∃ w1 w2, addCertToSSH env certName' w1 = some (Except.ok (), w2) ∧
            w.log <+: w1.log ∧ w2.log <+: w'.log) ∧
          env.Chmod (env.GetTempCertPath certName') 0o400 = none ∧
          env.Rename (env.GetTempCertPath certName') sshCertPath = none ∧
          env.SshAdd sshCertPath = none ∧
          ∃ pre, Event.RunTerraform env.GetTerraformDir ∈ pre ∧
            evs = pre ++
              [Event.Chmod (env.GetTempCertPath certName') 0o400,
                Event.GetSSHCertFilePath certName',
                Event.Rename (env.GetTempCertPath certName') sshCertPath,
                Event.SshAdd sshCertPath,
                Event.GetSSHCertFilePath certName'])) := by
  unfold createEC2Instance at h
  rw [run_bind_eq_ok] at h
  obtain ⟨_, wa, ha, h⟩ := h
  rw [run_bind_eq_ok] at h
  obtain ⟨_, wb, hb, h⟩ := h
  rw [run_bind_eq_ok] at h
  obtain ⟨⟨use, c, n⟩, wc, hkp, h⟩ := h
  simp only at h
  rw [run_bind_eq_ok] at h
  obtain ⟨_, wd, hsg, h⟩ := h
  simp only [run_bind_eq_ok, emit_eq_ok, call_eq_ok, PrintToUser_eq_ok, pure_eq_ok] at h
  obtain ⟨_, _, rfl, _, _, rfl, _, _, rfl, _, _, ⟨-, rfl⟩, _, _, ⟨-, rfl⟩, ⟨iid, eip⟩, _,
    ⟨-, rfl⟩, _, _, rfl, h⟩ := h
  rw [call_eq_ok] at ha
  obtain ⟨-, rfl⟩ := ha
  rw [PrintToUser_eq_ok] at hb
  subst hb
  obtain ⟨evk, hlk, hkey⟩ := createEC2Instance_keyPair_inv hkp
  obtain ⟨evg, hlg, hgrp⟩ := emits_createEC2Instance_securityGroup env ec2Svc securityGroupName
    _ _ _ hsg
  have hgrp' := declaredKeyPairs_eq_nil hgrp
  rcases hkey with ⟨rfl, rfl, rfl, hk, hc, hdk⟩ | ⟨rfl, hdk⟩
  · simp only [Bool.not_true, Bool.false_eq_true, if_false, run_bind_eq_ok, call_eq_ok,
      pure_eq_ok] at h
    obtain ⟨_, _, ⟨-, rfl⟩, path, _, ⟨hpath, rfl⟩, hres, rfl⟩ := h
    simp only [Prod.mk.injEq] at hres
    obtain ⟨rfl, rfl, rfl, rfl⟩ := hres
    refine ⟨c, [Event.SetCloudCredentials region,
        Event.PrintToUser "Creating a new EC2 instance on AWS..."] ++ evk ++ evg ++
        [Event.SetElasticIP, Event.SetupInstance securityGroupName true n ami, Event.SetOutput,
          Event.CreateTerraformDir, Event.SaveConf env.GetTerraformDir,
          Event.RunTerraform env.GetTerraformDir,
          Event.PrintToUser "A new EC2 instance is successfully created in AWS!",
          Event.GetSSHCertFilePath c], ?_, hpath, Or.inl ⟨rfl, rfl, hk, hc, ?_, ?_⟩⟩
    · simp [hlg, hlk]
    · simp [declaredKeyPairs_append, declaredKeyPairs, hdk, hgrp']
    · simp
  · simp only [Bool.not_false, if_true, run_bind_eq_ok, call_eq_ok, pure_eq_ok] at h
    obtain ⟨_, w1, hadd, path, _, ⟨hpath, rfl⟩, hres, rfl⟩ := h
    simp only [Prod.mk.injEq] at hres
    obtain ⟨rfl, rfl, rfl, rfl⟩ := hres
    obtain ⟨p, hchmod, hp, hrename, hsshadd, hlc⟩ := addCertToSSH_ok_inv hadd
    have hpp : p = path := by
      rw [hp] at hpath
      exact Except.ok.inj hpath
    subst hpp
    refine ⟨c, ([Event.SetCloudCredentials region,
        Event.PrintToUser "Creating a new EC2 instance on AWS..."] ++ evk ++ evg ++
        [Event.SetElasticIP, Event.SetupInstance securityGroupName false n ami, Event.SetOutput,
          Event.CreateTerraformDir, Event.SaveConf env.GetTerraformDir,
          Event.RunTerraform env.GetTerraformDir,
          Event.PrintToUser "A new EC2 instance is successfully created in AWS!"]) ++
        [Event.Chmod (env.GetTempCertPath c) 0o400, Event.GetSSHCertFilePath c,
          Event.Rename (env.GetTempCertPath c) p, Event.SshAdd p,
          Event.GetSSHCertFilePath c], ?_, hpath,
      Or.inr ⟨?_, ?_, ⟨_, _, hadd, ?_, ?_⟩, hchmod, hrename, hsshadd, _, ?_, rfl⟩⟩
    · simp [hlc, hlg, hlk]
    · simp [declaredKeyPairs_append, declaredKeyPairs, hdk, hgrp']
    · simp
    · simp only [hlg, hlk, List.append_assoc]
      exact List.prefix_append _ _
    · exact List.prefix_append _ _
    · simp

/-- C4, at a concrete input: in a fresh region the key pair is created and its
certificate is moved from the download directory to the SSH directory. -/
theorem createEC2Instance_key_pair_has_certificate_witness :
    ∃ w', createEC2Instance freshEnv ⟨"us-east-1"⟩ "us-east-1" "ami-1" "u-kp.pem" "u" "u-sg"
          emptyWorld
        = some (Except.ok ("i-1", "1.2.3.4", "/home/u/.ssh/u-kp.pem", "u"), w') ∧
      Event.SetKeyPair "u" "u-kp.pem" ∈ w'.log ∧
      Event.Rename "/tmp/u-kp.pem" "/home/u/.ssh/u-kp.pem" ∈ w'.log ∧
      ∃ (certName' : String) (evs : List Event),
        w'.log = emptyWorld.log ++ evs ∧
        freshEnv.GetSSHCertFilePath certName' = Except.ok "/home/u/.ssh/u-kp.pem" ∧
        (("u" = "u" ∧ certName' = "u-kp.pem" ∧
            freshEnv.CheckKeyPairExists ⟨"us-east-1"⟩ "u" = Except.ok true ∧
            freshEnv.CheckCertInSSHDir "u-kp.pem" = Except.ok true ∧
            declaredKeyPairs evs = [] ∧
            Event.SetupInstance "u-sg" true "u" "ami-1" ∈ evs) ∨
          (declaredKeyPairs evs = [("u", certName')] ∧
            Event.SetupInstance "u-sg" false "u" "ami-1" ∈ evs ∧
            (∃ w1 w2, addCertToSSH freshEnv certName' w1 = some (Except.ok (), w2) ∧
              emptyWorld.log <+: w1.log ∧ w2.log <+: w'.log) ∧
            freshEnv.Chmod (freshEnv.GetTempCertPath certName') 0o400 = none ∧
            freshEnv.Rename (freshEnv.GetTempCertPath certName') "/home/u/.ssh/u-kp.pem"
              = none ∧
            freshEnv.SshAdd "/home/u/.ssh/u-kp.pem" = none ∧
            ∃ pre, Event.RunTerraform freshEnv.GetTerraformDir ∈ pre ∧
              evs = pre ++
                [Event.Chmod (freshEnv.GetTempCertPath certName') 0o400,
                  Event.GetSSHCertFilePath certName',
                  Event.Rename (freshEnv.GetTempCertPath certName') "/home/u/.ssh/u-kp.pem",
                  Event.SshAdd "/home/u/.ssh/u-kp.pem",
                  Event.GetSSHCertFilePath certName'])) :=
  ⟨_, rfl, by decide, by decide,
    createEC2Instance_key_pair_has_certificate freshEnv ⟨"us-east-1"⟩ "us-east-1" "ami-1"
      "u-kp.pem" "u" "u-sg" emptyWorld _ "i-1" "1.2.3.4" "/home/u/.ssh/u-kp.pem" "u" rfl⟩

/-! ## Provisioning failure -/

theorem isFailureMessage_stopping (instanceID : String) :
    isFailureMessage ("Stopping AWS cloud server " ++ instanceID ++ "...") = false := by
  simp only [isFailureMessage, Bool.or_eq_false_iff, beq_eq_false_iff_ne]
  constructor <;>
    · intro h
      have := congrArg String.data h
      simp at this

theorem isFailureMessage_failedStop (instanceID : String) :
    isFailureMessage ("Failed to stop cloud server instance " ++ instanceID) = false := by
  simp only [isFailureMessage, Bool.or_eq_false_iff, beq_eq_false_iff_ne]
  constructor <;>
    · intro h
      have := congrArg String.data h
      simp at this

theorem isFailureMessage_stopOnConsole (instanceID : String) :
    isFailureMessage
      ("Stop cloud server instance " ++ instanceID ++ " on AWS console to prevent charges")
      = false := by
  simp only [isFailureMessage, Bool.or_eq_false_iff, beq_eq_false_iff_ne]
  constructor <;>
    · intro h
      have := congrArg String.data h
      simp at this

theorem isFailureMessage_stopped (instanceID : String) :
    isFailureMessage ("AWS cloud server instance " ++ instanceID ++ " stopped") = false := by
  simp only [isFailureMessage, Bool.or_eq_false_iff, beq_eq_false_iff_ne]
  constructor <;>
    · intro h
      have := congrArg String.data h
      simp at this

/-- The run of `createNode_provisioningFailed`, which asks the user nothing:
its result and the events it adds are determined by the instance-ID lookup and
the stop. -/
theorem createNode_provisioningFailed_run (env : Env) (ec2Svc : EC2) (err : Err) (w : World) :
    createNode_provisioningFailed env ec2Svc err w =
      match env.GetInstanceID env.GetTerraformDir with
      | Except.error instanceIDErr =>
        some (Except.error instanceIDErr,
          { w with log := w.log ++
            [Event.PrintToUser (if err = env.constants.EIPLimitErr then
                "Failed to create AWS cloud server, please try creating again in a different region"
              else "Failed to create AWS cloud server"),
              Event.GetInstanceID env.GetTerraformDir] })
      | Except.ok instanceID =>
        match env.StopInstance ec2Svc instanceID with
        | some stopErr =>
          some (Except.error stopErr,
            { w with log := w.log ++
              [Event.PrintToUser (if err = env.constants.EIPLimitErr then
                  "Failed to create AWS cloud server, please try creating again in a different region"
                else "Failed to create AWS cloud server"),
                Event.GetInstanceID env.GetTerraformDir,
                Event.PrintToUser ("Stopping AWS cloud server " ++ instanceID ++ "..."),
                Event.StopInstance ec2Svc instanceID,
                Event.PrintToUser ("Failed to stop cloud server instance " ++ instanceID),
                Event.PrintToUser ("Stop cloud server instance " ++ instanceID ++
                  " on AWS console to prevent charges")] })
        | none =>
          some (Except.error err,
            { w with log := w.log ++
              [Event.PrintToUser (if err = env.constants.EIPLimitErr then
                  "Failed to create AWS cloud server, please try creating again in a different region"
                else "Failed to create AWS cloud server"),
                Event.GetInstanceID env.GetTerraformDir,
                Event.PrintToUser ("Stopping AWS cloud server " ++ instanceID ++ "..."),
                Event.StopInstance ec2Svc instanceID,
                Event.PrintToUser ("AWS cloud server instance " ++ instanceID ++ " stopped")] }) := by
  unfold createNode_provisioningFailed
  by_cases herr : err = env.constants.EIPLimitErr
  · cases hid : env.GetInstanceID env.GetTerraformDir with
    | error e => simp [herr, run_bind, run_PrintToUser, run_call, hid]
    | ok instanceID =>
      cases hstop : env.StopInstance ec2Svc instanceID <;>
        simp [herr, run_bind, run_PrintToUser, run_call, hid, hstop, attempt, errOnly,
          run_outcome]
  · cases hid : env.GetInstanceID env.GetTerraformDir with
    | error e => simp [herr, run_bind, run_PrintToUser, run_call, hid]
    | ok instanceID =>
      cases hstop : env.StopInstance ec2Svc instanceID <;>
        simp [herr, run_bind, run_PrintToUser, run_call, hid, hstop, attempt, errOnly,
          run_outcome]

/-- When `createEC2Instance` fails, `createNode` goes on as
`createNode_provisioningFailed`. -/
theorem createNode_of_failed {env : Env} {clusterName : String} {w w1 w2 : World} {s : Setup}
    {err : Err} (hs : createNode_setup env w = some (Except.ok s, w1))
    (hf : createEC2Instance env s.ec2Svc s.region s.ami s.certName s.namePrefix
      s.securityGroupName w1 = some (Except.error err, w2)) :
    createNode env clusterName w = createNode_provisioningFailed env s.ec2Svc err w2 := by
  unfold createNode
  rw [run_bind_of_ok hs]
  have ha : attempt (createEC2Instance env s.ec2Svc s.region s.ami s.certName s.namePrefix
      s.securityGroupName) w1 = some (Except.ok (Except.error err), w2) := by
    simp [attempt, hf]
  rw [run_bind_of_ok ha]

/-- C5: when `createEC2Instance` fails, `createNode` prints exactly one of its
two failure messages: the one with the hint to try again in a different region
if the text of the error equals `constants.EIPLimitErr`, and the generic one,
which has no such hint, for every other error. -/
theorem createNode_failure_message (env : Env) (clusterName : String) (w w1 w2 : World)
    (s : Setup) (err : Err)
    (hs : createNode_setup env w = some (Except.ok s, w1))
    (hf : createEC2Instance env s.ec2Svc s.region s.ami s.certName s.namePrefix
      s.securityGroupName w1 = some (Except.error err, w2)) :
    ∃ (r : Err) (w3 : World) (evs : List Event),
      createNode env clusterName w = some (Except.error r, w3) ∧
      w3.log = w2.log ++ evs ∧
      (err = env.constants.EIPLimitErr →
        (printed evs).filter isFailureMessage =
          ["Failed to create AWS cloud server, please try creating again in a different region"]) ∧
      (err ≠ env.constants.EIPLimitErr →
        (printed evs).filter isFailureMessage = ["Failed to create AWS cloud server"]) ∧
      containsText
        "Failed to create AWS cloud server, please try creating again in a different region"
        "try creating again in a different region" ∧
      ¬ containsText "Failed to create AWS cloud server"
        "try creating again in a different region" := by
  rw [createNode_of_failed hs hf, createNode_provisioningFailed_run]
  have hyes : containsText
      "Failed to create AWS cloud server, please try creating again in a different region"
      "try creating again in a different region" := by decide
  have hno : ¬ containsText "Failed to create AWS cloud server"
      "try creating again in a different region" := by decide
  cases hid : env.GetInstanceID env.GetTerraformDir with
  | error e =>
    refine ⟨_, _, _, rfl, rfl, ?_, ?_, hyes, hno⟩
    · intro h
      simp [h, printed, isFailureMessage]
    · intro h
      simp [h, printed, isFailureMessage]
  | ok instanceID =>
    dsimp only
    cases hstop : env.StopInstance s.ec2Svc instanceID with
    | none =>
      refine ⟨_, _, _, rfl, rfl, ?_, ?_, hyes, hno⟩
      · intro h
        simp [h, printed, List.filter_cons, isFailureMessage_stopping, isFailureMessage_stopped]
        simp [isFailureMessage]
      · intro h
        simp [h, printed, List.filter_cons, isFailureMessage_stopping, isFailureMessage_stopped]
        simp [isFailureMessage]
    | some stopErr =>
      refine ⟨_, _, _, rfl, rfl, ?_, ?_, hyes, hno⟩
      · intro h
        simp [h, printed, List.filter_cons, isFailureMessage_stopping,
          isFailureMessage_failedStop, isFailureMessage_stopOnConsole]
        simp [isFailureMessage]
      · intro h
        simp [h, printed, List.filter_cons, isFailureMessage_stopping,
          isFailureMessage_failedStop, isFailureMessage_stopOnConsole]
        simp [isFailureMessage]

/-- C5, at a concrete input: the provisioning tool reports the elastic-IP
quota error, and the message with the hint is the failure message printed. -/
theorem createNode_failure_message_witness :
    ∃ (r : Err) (w3 : World) (evs : List Event),
      createNode quotaEnv "c1" defaultAnswers = some (Except.error r, w3) ∧
      evs <:+ w3.log ∧
      (printed evs).filter isFailureMessage =
        ["Failed to create AWS cloud server, please try creating again in a different region"] := by
  obtain ⟨r, w3, evs, hrun, hlog, hq, -, -, -⟩ :=
    createNode_failure_message quotaEnv "c1" defaultAnswers _ _ _ "AddressLimitExceeded" rfl rfl
  exact ⟨r, w3, evs, hrun, by rw [hlog]; exact List.suffix_append _ _, hq rfl⟩

/-- C6 fails as stated: when the provisioning tool fails before any instance
is recorded, the instance ID cannot be read back, and `createNode` returns that
lookup error, which is not the provisioning error, without trying to stop
anything. -/
theorem createNode_failure_without_stop :
    ∃ (s : Setup) (w1 w2 w3 : World),
      createNode_setup noInstanceEnv defaultAnswers = some (Except.ok s, w1) ∧
      createEC2Instance noInstanceEnv s.ec2Svc s.region s.ami s.certName s.namePrefix
          s.securityGroupName w1
        = some (Except.error "terraform apply failed", w2) ∧
      createNode noInstanceEnv "c1" defaultAnswers = some (Except.error "no outputs found", w3) ∧
      stopAttempts w3.log = [] ∧
      ("no outputs found" : Err) ≠ "terraform apply failed" :=
  ⟨_, _, _, _, rfl, rfl, rfl, rfl, by decide⟩

/-- C6, amended: when `createEC2Instance` fails, `createNode` reads the
instance ID back.  If that lookup fails, its error is returned and no stop is
attempted.  Otherwise `createNode` tries to stop that instance, once, before it
returns, and the error returned is the provisioning error when the stop
succeeds and the stop error when the stop fails. -/
theorem createNode_stops_instance_when_found (env : Env) (clusterName : String)
    (w w1 w2 : World) (s : Setup) (err : Err)
    (hs : createNode_setup env w = some (Except.ok s, w1))
    (hf : createEC2Instance env s.ec2Svc s.region s.ami s.certName s.namePrefix
      s.securityGroupName w1 = some (Except.error err, w2)) :
    ∃ (r : Err) (w3 : World) (evs : List Event),
      createNode env clusterName w = some (Except.error r, w3) ∧
      w3.log = w2.log ++ evs ∧
      (∀ lookupErr, env.GetInstanceID env.GetTerraformDir = Except.error lookupErr →
        r = lookupErr ∧ stopAttempts evs = []) ∧
      (∀ instanceID, env.GetInstanceID env.GetTerraformDir = Except.ok instanceID →
        stopAttempts evs = [instanceID] ∧
        Event.StopInstance s.ec2Svc instanceID ∈ evs ∧
        (env.StopInstance s.ec2Svc instanceID = none → r = err) ∧
        (∀ stopErr, env.StopInstance s.ec2Svc instanceID = some stopErr → r = stopErr)) := by
  rw [createNode_of_failed hs hf, createNode_provisioningFailed_run]
  cases hid : env.GetInstanceID env.GetTerraformDir with
  | error e =>
    refine ⟨_, _, _, rfl, rfl, ?_, ?_⟩
    · intro lookupErr h
      simp only [Except.error.injEq] at h
      simp [h, stopAttempts]
    · intro instanceID h
      simp at h
  | ok instanceID =>
    dsimp only
    cases hstop : env.StopInstance s.ec2Svc instanceID with
    | none =>
      refine ⟨_, _, _, rfl, rfl, ?_, ?_⟩
      · intro lookupErr h
        simp at h
      · intro instanceID' h
        simp only [Except.ok.injEq] at h
        subst h
        simp [stopAttempts, hstop]
    | some stopErr =>
      refine ⟨_, _, _, rfl, rfl, ?_, ?_⟩
      · intro lookupErr h
        simp at h
      · intro instanceID' h
        simp only [Except.ok.injEq] at h
        subst h
        simp [stopAttempts, hstop]

/-- C6 amended, at a concrete input: the instance `i-1` is found and the stop
request is rejected, so the stop error is returned. -/
theorem createNode_stops_instance_when_found_witness :
    ∃ (w3 : World) (evs : List Event),
      createNode stopFailsEnv "c1" defaultAnswers
        = some (Except.error "stop request rejected", w3) ∧
      evs <:+ w3.log ∧ stopAttempts evs = ["i-1"] := by
  obtain ⟨r, w3, evs, hrun, hlog, -, hfound⟩ :=
    createNode_stops_instance_when_found stopFailsEnv "c1" defaultAnswers _ _ _
      "terraform apply failed" rfl rfl
  obtain ⟨hstop, -, -, hr⟩ := hfound "i-1" rfl
  rw [hr "stop request rejected" rfl] at hrun
  exact ⟨w3, evs, hrun, by rw [hlog]; exact List.suffix_append _ _, hstop⟩

/-! ## Version selection -/

theorem promptSubnetNameLoop_first_valid (env : Env) (name : String)
    (rest : List (Except Err String)) (chains : List String)
    (hname : env.ValidateSubnetNameAndGetChains [name] = Except.ok chains) :
    ∀ (invalid : List String) (fuel : Nat) (la : List (Except Err String))
      (ya : List (Except Err Bool)) (lg : List Event),
      (∀ n ∈ invalid, ∃ e, env.ValidateSubnetNameAndGetChains [n] = Except.error e) →
      invalid.length < fuel →
      promptSubnetNameLoop env fuel ⟨la, invalid.map Except.ok ++ Except.ok name :: rest, ya, lg⟩
        = some (Except.ok name,
            ⟨la, rest, ya, lg ++ (invalidNameEvents invalid ++
              [Event.CaptureString
                  "Which Subnet would you like to use to choose the avalanche go version?",
                Event.ValidateSubnetNameAndGetChains [name]])⟩) := by
  intro invalid
  induction invalid with
  | nil =>
    intro fuel la ya lg _ hfuel
    obtain ⟨fuel, rfl⟩ : ∃ k, fuel = k + 1 := ⟨fuel - 1, by omega⟩
    simp [promptSubnetNameLoop, run_bind, CaptureString, attempt, run_call, hname, run_pure,
      invalidNameEvents]
  | cons n invalid ih =>
    intro fuel la ya lg hinv hfuel
    obtain ⟨fuel, rfl⟩ : ∃ k, fuel = k + 1 := ⟨fuel - 1, by omega⟩
    obtain ⟨e, hn⟩ := hinv n (List.mem_cons_self _ _)
    simp only [promptSubnetNameLoop, run_bind, CaptureString, List.map_cons, List.cons_append,
      attempt, run_call, hn, run_PrintToUser]
    rw [ih fuel _ _ _ (fun m hm => hinv m (List.mem_cons_of_mem _ hm)) (by simpa using hfuel)]
    simp [invalidNameEvents]

theorem promptSubnetNameLoop_error (env : Env) :
    ∀ (fuel : Nat) (la sa : List (Except Err String)) (ya : List (Except Err Bool))
      (lg : List Event) (e : Err) (w' : World),
      promptSubnetNameLoop env fuel ⟨la, sa, ya, lg⟩ = some (Except.error e, w') →
      ∃ (invalid : List String) (rest : List (Except Err String)),
        sa = invalid.map Except.ok ++ Except.error e :: rest ∧
        ∀ n ∈ invalid, ∃ e', env.ValidateSubnetNameAndGetChains [n] = Except.error e' := by
  intro fuel
  induction fuel with
  | zero =>
    intro la sa ya lg e w' h
    simp [promptSubnetNameLoop] at h
  | succ fuel ih =>
    intro la sa ya lg e w' h
    cases sa with
    | nil => simp [promptSubnetNameLoop, run_bind, CaptureString] at h
    | cons a sa =>
      cases a with
      | error e0 =>
        simp only [promptSubnetNameLoop, run_bind, CaptureString, Option.some.injEq,
          Prod.mk.injEq, Except.error.injEq] at h
        exact ⟨[], sa, by simp [h.1], by simp⟩
      | ok n =>
        cases hv : env.ValidateSubnetNameAndGetChains [n] with
        | ok chains =>
          simp [promptSubnetNameLoop, run_bind, CaptureString, attempt, run_call, hv,
            run_pure] at h
        | error e1 =>
          simp only [promptSubnetNameLoop, run_bind, CaptureString, attempt, run_call, hv,
            run_PrintToUser] at h
          obtain ⟨invalid, rest, hsa, hinv⟩ := ih _ _ _ _ _ _ h
          refine ⟨n :: invalid, rest, by simp [hsa], ?_⟩
          intro m hm
          rcases List.mem_cons.1 hm with rfl | hm'
          · exact ⟨e1, hv⟩
          · exact hinv m hm'

theorem promptAvalancheGoReferenceChoice_first_valid (env : Env) (versionOption : String)
    (invalid : List String) (name : String) (rest la : List (Except Err String))
    (ya : List (Except Err Bool)) (lg : List Event) (chains : List String)
    (hopt : versionOption ≠ "Use latest Avalanche Go Version")
    (hinv : ∀ n ∈ invalid, ∃ e, env.ValidateSubnetNameAndGetChains [n] = Except.error e)
    (hname : env.ValidateSubnetNameAndGetChains [name] = Except.ok chains) :
    promptAvalancheGoReferenceChoice env
        ⟨Except.ok versionOption :: la, invalid.map Except.ok ++ Except.ok name :: rest, ya, lg⟩
      = some (Except.ok name,
          ⟨la, rest, ya, lg ++
            ([Event.CaptureList
                "What version of Avalanche Go would you like to install in the node?"
                ["Use latest Avalanche Go Version",
                  "Use the deployed Subnet's VM version that the node will be validating"]] ++
              invalidNameEvents invalid ++
              [Event.CaptureString
                  "Which Subnet would you like to use to choose the avalanche go version?",
                Event.ValidateSubnetNameAndGetChains [name]])⟩) := by
  simp only [promptAvalancheGoReferenceChoice, run_bind, CaptureList, hopt, if_false]
  rw [promptSubnetNameLoop_first_valid env name rest chains hname invalid _ _ _ _ hinv
    (by simp; omega)]
  simp

/-- C8: an invalid subnet name re-prompts instead of failing.  Once an option
other than the default one is chosen, the function returns the first entered
name that passes subnet validation, whatever names failed validation before
it; and when the function returns an error, that error is the one the prompt
itself returned, either for the list of options or, after any number of names
that all failed validation, for a subnet name. -/
theorem promptAvalancheGoReferenceChoice_reprompts (env : Env)
    (la sa : List (Except Err String)) (ya : List (Except Err Bool)) (lg : List Event) :
    (∀ (versionOption : String) (invalid : List String) (name : String)
        (rest : List (Except Err String)),
      versionOption ≠ "Use latest Avalanche Go Version" →
      sa = invalid.map Except.ok ++ Except.ok name :: rest →
      (∀ n ∈ invalid, ∃ e, env.ValidateSubnetNameAndGetChains [n] = Except.error e) →
      (∃ chains, env.ValidateSubnetNameAndGetChains [name] = Except.ok chains) →
      promptAvalancheGoReferenceChoice env ⟨Except.ok versionOption :: la, sa, ya, lg⟩
        = some (Except.ok name,
            ⟨la, rest, ya, lg ++
              ([Event.CaptureList
                  "What version of Avalanche Go would you like to install in the node?"
                  ["Use latest Avalanche Go Version",
                    "Use the deployed Subnet's VM version that the node will be validating"]] ++
                invalidNameEvents invalid ++
                [Event.CaptureString
                    "Which Subnet would you like to use to choose the avalanche go version?",
                  Event.ValidateSubnetNameAndGetChains [name]])⟩)) ∧
    (∀ (e : Err) (w' : World),
      promptAvalancheGoReferenceChoice env ⟨la, sa, ya, lg⟩ = some (Except.error e, w') →
      la.head? = some (Except.error e) ∨
        ∃ versionOption la', la = Except.ok versionOption :: la' ∧
          versionOption ≠ "Use latest Avalanche Go Version" ∧
          ∃ (invalid : List String) (rest : List (Except Err String)),
            sa = invalid.map Except.ok ++ Except.error e :: rest ∧
            ∀ n ∈ invalid, ∃ e', env.ValidateSubnetNameAndGetChains [n] = Except.error e') := by
  constructor
  · intro versionOption invalid name rest hopt hsa hinv hname
    obtain ⟨chains, hname⟩ := hname
    subst hsa
    exact promptAvalancheGoReferenceChoice_first_valid env versionOption invalid name rest la ya
      lg chains hopt hinv hname
  · intro e w' h
    cases la with
    | nil => simp [promptAvalancheGoReferenceChoice, run_bind, CaptureList] at h
    | cons a la' =>
      cases a with
      | error e0 =>
        simp only [promptAvalancheGoReferenceChoice, run_bind, CaptureList, Option.some.injEq,
          Prod.mk.injEq, Except.error.injEq] at h
        left
        simp [h.1]
      | ok versionOption =>
        right
        by_cases hopt : versionOption = "Use latest Avalanche Go Version"
        · simp [promptAvalancheGoReferenceChoice, run_bind, CaptureList, hopt, run_pure] at h
        · simp only [promptAvalancheGoReferenceChoice, run_bind, CaptureList, hopt,
            if_false] at h
          exact ⟨versionOption, la', rfl, hopt, promptSubnetNameLoop_error env _ _ _ _ _ _ _ h⟩

/-- C8, at a concrete input: the user first enters `nope`, which is no subnet,
then `subnetA`, and `subnetA` is returned. -/
theorem promptAvalancheGoReferenceChoice_reprompts_witness :
    ∃ w', promptAvalancheGoReferenceChoice freshEnv
        ⟨[Except.ok "Use the deployed Subnet's VM version that the node will be validating"],
          [Except.ok "nope", Except.ok "subnetA"], [], []⟩
      = some (Except.ok "subnetA", w') :=
  ⟨_, (promptAvalancheGoReferenceChoice_reprompts freshEnv [] [Except.ok "nope", Except.ok "subnetA"]
    [] []).1 "Use the deployed Subnet's VM version that the node will be validating"
    ["nope"] "subnetA" [] (by decide) rfl
    (fun n hn => by rw [List.mem_singleton.1 hn]; exact ⟨_, rfl⟩) ⟨_, rfl⟩⟩

/-- Selecting a valid subnet whose name is not `latest` yields the node
software version that the compatibility lookup gives for the RPC version of
the subnet's sidecar. -/
theorem getAvalancheGoVersion_subnet (env : Env) (versionOption : String)
    (invalid : List String) (name : String) (rest la : List (Except Err String))
    (ya : List (Except Err Bool)) (lg : List Event) (chains : List String) (sc : Sidecar)
    (S : String)
    (hopt : versionOption ≠ "Use latest Avalanche Go Version")
    (hinv : ∀ n ∈ invalid, ∃ e, env.ValidateSubnetNameAndGetChains [n] = Except.error e)
    (hname : env.ValidateSubnetNameAndGetChains [name] = Except.ok chains)
    (hnl : name ≠ "latest")
    (hsc : env.LoadSidecar name = Except.ok sc)
    (hS : env.GetLatestAvalancheGoByProtocolVersion sc.RPCVersion
      env.constants.AvalancheGoCompatibilityURL = Except.ok S) :
    getAvalancheGoVersion env
        ⟨Except.ok versionOption :: la, invalid.map Except.ok ++ Except.ok name :: rest, ya, lg⟩
      = some (Except.ok S,
          ⟨la, rest, ya, lg ++
            ([Event.CaptureList
                "What version of Avalanche Go would you like to install in the node?"
                ["Use latest Avalanche Go Version",
                  "Use the deployed Subnet's VM version that the node will be validating"]] ++
              invalidNameEvents invalid ++
              [Event.CaptureString
                  "Which Subnet would you like to use to choose the avalanche go version?",
                Event.ValidateSubnetNameAndGetChains [name],
                Event.LoadSidecar name,
                Event.GetLatestAvalancheGoByProtocolVersion sc.RPCVersion
                  env.constants.AvalancheGoCompatibilityURL])⟩) := by
  unfold getAvalancheGoVersion
  rw [run_bind_of_ok (promptAvalancheGoReferenceChoice_first_valid env versionOption invalid name
    rest la ya lg chains hopt hinv hname)]
  simp [hnl, run_bind, run_call, hsc, GetLatestAvagoVersionForRPC, hS, run_pure]

/-- C7 fails on a subnet named `latest`: the subnet is valid, its sidecar
records RPC version 28 and the compatibility lookup maps 28 to `v1.10.9`, yet
selecting it makes `getAvalancheGoVersion` return `latest`, without loading the
sidecar. -/
theorem getAvalancheGoVersion_subnet_named_latest :
    latestSubnetEnv.ValidateSubnetNameAndGetChains ["latest"] = Except.ok ["chainL"] ∧
    latestSubnetEnv.LoadSidecar "latest" = Except.ok { RPCVersion := 28 } ∧
    latestSubnetEnv.GetLatestAvalancheGoByProtocolVersion 28
      latestSubnetEnv.constants.AvalancheGoCompatibilityURL = Except.ok "v1.10.9" ∧
    ∃ w', getAvalancheGoVersion latestSubnetEnv
          ⟨[Except.ok "Use the deployed Subnet's VM version that the node will be validating"],
            [Except.ok "latest"], [], []⟩
        = some (Except.ok "latest", w') ∧
      loadedSidecars w'.log = [] ∧
      ("latest" : String) ≠ "v1.10.9" :=
  ⟨rfl, rfl, rfl, _, rfl, rfl, by decide⟩

/-! ## Security group -/

/-- C10: security-group reconciliation.  When the existence check and the
lookup of the caller's IP succeed: if the group does not exist, it is declared
from scratch for the caller's IP and no rule update is declared; if it exists,
no group is declared and one rule update is declared for the ID of the
existing group, whose first flag is what `CheckUserIPInSg` returns for the SSH
port and whose second flag is what it returns for the node API port, so that a
rule is added exactly for those of the two ports on which the IP is not
permitted yet. -/
theorem createEC2Instance_securityGroup_reconciles (env : Env) (ec2Svc : EC2)
    (securityGroupName : String) (w : World) (securityGroupExists : Bool) (sg : SecurityGroup)
    (ipOutput : String) (result : List (String × Option String)) (userIPAddress : String)
    (hsg : env.CheckSecurityGroupExists ec2Svc securityGroupName
      = Except.ok (securityGroupExists, sg))
    (hcurl : env.Curl "https://api.ipify.org?format=json" = Except.ok ipOutput)
    (hjson : env.JsonUnmarshal ipOutput = Except.ok result)
    (hip : entriesGet "ip" result = some (some userIPAddress))
    (hparse : env.ParseIP userIPAddress = true) :
    (securityGroupExists = false →
      createEC2Instance_securityGroup env ec2Svc securityGroupName w
        = some (Except.ok (),
            { w with log := w.log ++
              [Event.CheckSecurityGroupExists ec2Svc securityGroupName,
                Event.Curl "https://api.ipify.org?format=json",
                Event.PrintToUser
                  ("Creating new security group " ++ securityGroupName ++ " in AWS"),
                Event.SetSecurityGroup userIPAddress securityGroupName] })) ∧
    (securityGroupExists = true →
      createEC2Instance_securityGroup env ec2Svc securityGroupName w
        = some (Except.ok (),
            { w with log := w.log ++
              [Event.CheckSecurityGroupExists ec2Svc securityGroupName,
                Event.Curl "https://api.ipify.org?format=json",
                Event.PrintToUser
                  ("Using existing security group " ++ securityGroupName ++ " in AWS"),
                Event.SetSecurityGroupRule userIPAddress sg.GroupId
                  (env.CheckUserIPInSg sg userIPAddress env.constants.SSHTCPPort)
                  (env.CheckUserIPInSg sg userIPAddress env.constants.AvalanchegoAPIPort)] }) ∧
      ∀ port, port ∈ SetSecurityGroupRule_ports env.constants
          (env.CheckUserIPInSg sg userIPAddress env.constants.SSHTCPPort)
          (env.CheckUserIPInSg sg userIPAddress env.constants.AvalanchegoAPIPort) ↔
        (port = env.constants.SSHTCPPort ∨ port = env.constants.AvalanchegoAPIPort) ∧
          env.CheckUserIPInSg sg userIPAddress port = false) := by
  have hget : ∀ w0 : World, getIPAddress env w0
      = some (Except.ok userIPAddress,
          { w0 with log := w0.log ++ [Event.Curl "https://api.ipify.org?format=json"] }) := by
    intro w0
    simp [getIPAddress, run_bind, run_call, hcurl, run_outcome, hjson, hip, hparse, run_pure]
  constructor
  · intro hex
    subst hex
    simp [createEC2Instance_securityGroup, run_bind, run_call, hsg, hget, run_PrintToUser,
      run_emit]
  · intro hex
    subst hex
    refine ⟨?_, ?_⟩
    · simp [createEC2Instance_securityGroup, run_bind, run_call, hsg, hget, run_PrintToUser,
        run_emit]
    · intro port
      by_cases hp1 : port = env.constants.SSHTCPPort <;>
        by_cases hp2 : port = env.constants.AvalanchegoAPIPort <;>
        cases h1 : env.CheckUserIPInSg sg userIPAddress env.constants.SSHTCPPort <;>
        cases h2 : env.CheckUserIPInSg sg userIPAddress env.constants.AvalanchegoAPIPort <;>
        simp_all [SetSecurityGroupRule_ports]

/-- C10, at a concrete input: the group exists and permits the caller's IP on
the SSH port only, so the rule update carries the flags `true` and `false` and
a rule is added for the node API port alone. -/
theorem createEC2Instance_securityGroup_reconciles_witness :
    ∃ w', createEC2Instance_securityGroup existingGroupEnv ⟨"us-east-1"⟩ "u-sg" emptyWorld
        = some (Except.ok (), w') ∧
      w'.log =
        [Event.CheckSecurityGroupExists ⟨"us-east-1"⟩ "u-sg",
          Event.Curl "https://api.ipify.org?format=json",
          Event.PrintToUser "Using existing security group u-sg in AWS",
          Event.SetSecurityGroupRule "9.9.9.9" "sg-1" true false] ∧
      SetSecurityGroupRule_ports existingGroupEnv.constants true false = [9650] :=
  ⟨_, ((createEC2Instance_securityGroup_reconciles existingGroupEnv ⟨"us-east-1"⟩ "u-sg"
      emptyWorld true
      { GroupId := "sg-1"
        IpPermissions := [{ FromPort := 22, ToPort := 22, IpRanges := ["9.9.9.9"] }] }
      "ip=9.9.9.9" [("ip", some "9.9.9.9")] "9.9.9.9" rfl rfl rfl rfl rfl).2 rfl).1, rfl, rfl⟩

/-! ## The successful run -/

theorem attempt_eq_ok {α : Type} {m : M α} {w w' : World} {r : Except Err α} :
    attempt m w = some (Except.ok r, w') ↔ m w = some (r, w') := by
  unfold attempt
  cases h : m w with
  | none => simp
  | some p =>
    obtain ⟨r1, w1⟩ := p
    simp

theorem createNode_provisioningFailed_ne_ok (env : Env) (ec2Svc : EC2) (err : Err)
    (w w' : World) (u : Unit) :
    createNode_provisioningFailed env ec2Svc err w ≠ some (Except.ok u, w') := by
  rw [createNode_provisioningFailed_run]
  cases hid : env.GetInstanceID env.GetTerraformDir with
  | error e => simp
  | ok instanceID =>
    dsimp only
    cases hstop : env.StopInstance ec2Svc instanceID <;> simp

theorem emits_PrintResults (env : Env) (instanceID elasticIP certFilePath region : String) :
    Emits (fun _ => True) (PrintResults env instanceID elasticIP certFilePath region) := by
  unfold PrintResults
  repeat refine emits_bind (emits_PrintToUser trivial) fun _ => ?_
  exact emits_PrintToUser trivial

theorem createNode_setup_inv {env : Env} {w w1 : World} {s : Setup}
    (h : createNode_setup env w = some (Except.ok s, w1)) :
    ∃ wa wb, getAWSCloudConfig env wa = some (Except.ok (s.ec2Svc, s.region, s.ami), wb) := by
  unfold createNode_setup at h
  simp only [run_bind_eq_ok, call_eq_ok, pure_eq_ok] at h
  obtain ⟨_, _, -, _, _, -, _, _, -, usr, _, -, ⟨ec2Svc, region, ami⟩, wb, hcfg, _, _, -, hs,
    -⟩ := h
  subst hs
  exact ⟨_, wb, hcfg⟩

theorem createClusterNodeConfig_ok_inv {env : Env}
    {nodeID region ami keyPairName certPath sg eip clusterName : String} {w w' : World}
    (h : createClusterNodeConfig env nodeID region ami keyPairName certPath sg eip clusterName w
      = some (Except.ok (), w')) :
    ∃ (written : ClusterConfig) (evs : List Event),
      env.CreateNodeCloudConfigFile nodeID
        { NodeID := nodeID, Region := region, AMI := ami, KeyPair := keyPairName,
          CertPath := certPath, SecurityGroup := sg, ElasticIP := eip } = none ∧
      w'.log = w.log ++
        ([Event.CreateNodeCloudConfigFile nodeID
          { NodeID := nodeID, Region := region, AMI := ami, KeyPair := keyPairName,
            CertPath := certPath, SecurityGroup := sg, ElasticIP := eip }] ++ evs ++
          [Event.WriteClusterConfigFile written]) ∧
      env.WriteClusterConfigFile written = none ∧
      nodeID ∈ (written.Clusters.get? clusterName).getD [] := by
  unfold createClusterNodeConfig at h
  simp only [run_bind_eq_ok, call_eq_ok, errOnly_eq_ok] at h
  obtain ⟨_, _, ⟨hnode, rfl⟩, hupd⟩ := h
  obtain ⟨prior, kp, cl, evs, -, hlog, -, hwr, hget, -, -, -, -⟩ :=
    updateClusterConfig_ok_inv hupd
  refine ⟨{ KeyPair := some kp, Clusters := some cl }, evs, hnode, ?_, hwr, ?_⟩
  · simp [hlog]
  · simp [GoMap.get?, hget]

/-- C9: on a successful run of `createNode` the local state records the
provisioning results verbatim.  The node config is written under the instance
ID that `createEC2Instance` returned, with that instance ID, the region and
image of `getAWSCloudConfig`, the key-pair name and certificate path that
`createEC2Instance` returned, the security-group name and the elastic IP
returned; and the cluster config written lists that instance ID under
`clusterName`. -/
theorem createNode_records_provisioning_results (env : Env) (clusterName : String)
    (w w' : World) (h : createNode env clusterName w = some (Except.ok (), w')) :
    ∃ (s : Setup) (w1 w2 : World) (instanceID elasticIP certFilePath keyPairName : String)
      (written : ClusterConfig),
      createNode_setup env w = some (Except.ok s, w1) ∧
      (∃ wa wb, getAWSCloudConfig env wa = some (Except.ok (s.ec2Svc, s.region, s.ami), wb)) ∧
      createEC2Instance env s.ec2Svc s.region s.ami s.certName s.namePrefix
          s.securityGroupName w1
        = some (Except.ok (instanceID, elasticIP, certFilePath, keyPairName), w2) ∧
      Event.CreateNodeCloudConfigFile instanceID
        { NodeID := instanceID
          Region := s.region
          AMI := s.ami
          KeyPair := keyPairName
          CertPath := certFilePath
          SecurityGroup := s.securityGroupName
          ElasticIP := elasticIP } ∈ w'.log ∧
      env.CreateNodeCloudConfigFile instanceID
        { NodeID := instanceID
          Region := s.region
          AMI := s.ami
          KeyPair := keyPairName
          CertPath := certFilePath
          SecurityGroup := s.securityGroupName
          ElasticIP := elasticIP } = none ∧
      Event.WriteClusterConfigFile written ∈ w'.log ∧
      env.WriteClusterConfigFile written = none ∧
      instanceID ∈ (written.Clusters.get? clusterName).getD [] := by
  unfold createNode at h
  rw [run_bind_eq_ok] at h
  obtain ⟨s, w1, hs, h⟩ := h
  rw [run_bind_eq_ok] at h
  obtain ⟨created, w2, hatt, h⟩ := h
  rw [attempt_eq_ok] at hatt
  cases created with
  | error err => exact absurd h (createNode_provisioningFailed_ne_ok _ _ _ _ _ _)
  | ok r =>
    obtain ⟨instanceID, elasticIP, certFilePath, keyPairName⟩ := r
    simp only at h
    unfold createNode_provisioned at h
    simp only [run_bind_eq_ok, call_eq_ok, emit_eq_ok, PrintToUser_eq_ok] at h
    obtain ⟨_, _, -, _, _, -, _, _, -, version, _, -, _, _, -, _, wc, -, _, wd, hcfg, _, we,
      hwe, _, wf, ⟨-, hwf⟩, _, wg, hres, hfin⟩ := h
    obtain ⟨written, evs, hnode, hlog, hwr, hmem⟩ := createClusterNodeConfig_ok_inv hcfg
    obtain ⟨evr, hlr, -⟩ := emits_PrintResults env _ _ _ _ _ _ _ hres
    have hfinal : w'.log = wd.log ++ ([Event.PrintToUser
        "Copying staker.crt and staker.key to local machine...",
        Event.RunAnsibleCopyStakingFilesPlaybook env.GetAnsibleDir
          (env.GetNodeInstanceDirPath instanceID) (env.GetAnsibleInventoryPath clusterName)] ++
        evr ++ [Event.PrintToUser
          "AvalancheGo and Avalanche-CLI installed and node is bootstrapping!"]) := by
      rw [hfin]
      simp [hlr, hwf, hwe]
    refine ⟨s, w1, w2, instanceID, elasticIP, certFilePath, keyPairName, written, hs,
      createNode_setup_inv hs, hatt, ?_, hnode, ?_, hwr, hmem⟩
    · rw [hfinal, hlog]
      simp
    · rw [hfinal, hlog]
      simp

/-- C9, at a concrete input: the full create path in a fresh region, for
cluster `c1`. -/
theorem createNode_records_provisioning_results_witness :
    ∃ w', createNode freshEnv "c1" defaultAnswers = some (Except.ok (), w') ∧
      ∃ (s : Setup) (w1 w2 : World) (instanceID elasticIP certFilePath keyPairName : String)
        (written : ClusterConfig),
        createNode_setup freshEnv defaultAnswers = some (Except.ok s, w1) ∧
        (∃ wa wb, getAWSCloudConfig freshEnv wa
          = some (Except.ok (s.ec2Svc, s.region, s.ami), wb)) ∧
        createEC2Instance freshEnv s.ec2Svc s.region s.ami s.certName s.namePrefix
            s.securityGroupName w1
          = some (Except.ok (instanceID, elasticIP, certFilePath, keyPairName), w2) ∧
        Event.CreateNodeCloudConfigFile instanceID
          { NodeID := instanceID
            Region := s.region
            AMI := s.ami
            KeyPair := keyPairName
            CertPath := certFilePath
            SecurityGroup := s.securityGroupName
            ElasticIP := elasticIP } ∈ w'.log ∧
        freshEnv.CreateNodeCloudConfigFile instanceID
          { NodeID := instanceID
            Region := s.region
            AMI := s.ami
            KeyPair := keyPairName
            CertPath := certFilePath
            SecurityGroup := s.securityGroupName
            ElasticIP := elasticIP } = none ∧
        Event.WriteClusterConfigFile written ∈ w'.log ∧
        freshEnv.WriteClusterConfigFile written = none ∧
        instanceID ∈ (written.Clusters.get? "c1").getD [] :=
  ⟨_, rfl, createNode_records_provisioning_results freshEnv "c1" defaultAnswers _ rfl⟩

/-- The end-to-end scenario of a fresh region: the local state written holds the
new node under cluster `c1` with the instance ID, region and elastic IP that
provisioning returned. -/
theorem createNode_fresh_region_run : ∃ w', createNode freshEnv "c1" defaultAnswers = some (Except.ok (), w') ∧
    Event.CreateNodeCloudConfigFile "i-1"
      { NodeID := "i-1", Region := "us-east-1", AMI := "ami-1",
        KeyPair := "u-us-east-1-avalanche-cli",
        CertPath := "/home/u/.ssh/u-us-east-1-avalanche-cli-us-east-1-kp.pem",
        SecurityGroup := "u-us-east-1-avalanche-cli-us-east-1-sg",
        ElasticIP := "1.2.3.4" } ∈ w'.log ∧
    Event.WriteClusterConfigFile
      { KeyPair := some [("u-us-east-1-avalanche-cli",
          "/home/u/.ssh/u-us-east-1-avalanche-cli-us-east-1-kp.pem")],
        Clusters := some [("c1", ["i-1"])] } ∈ w'.log :=
  ⟨_, rfl, by decide, by decide⟩

/-! ## The fresh key-pair name -/

theorem getNewKeyPairNameLoop_ok_inv (env : Env) (ec2Svc : EC2) :
    ∀ (fuel : Nat) (la sa : List (Except Err String)) (ya : List (Except Err Bool))
      (lg : List Event) (name : String) (w' : World),
      getNewKeyPairNameLoop env ec2Svc fuel ⟨la, sa, ya, lg⟩ = some (Except.ok name, w') →
      ∃ (taken : List String) (rest : List (Except Err String)),
        sa = taken.map Except.ok ++ Except.ok name :: rest ∧
        (∀ n ∈ taken, env.CheckKeyPairExists ec2Svc n = Except.ok true) ∧
        env.CheckKeyPairExists ec2Svc name = Except.ok false ∧
        w' = ⟨la, rest, ya, lg ++ (rejectedNameEvents ec2Svc taken ++
          [Event.CaptureString "Key Pair Name", Event.CheckKeyPairExists ec2Svc name])⟩ := by
  intro fuel
  induction fuel with
  | zero =>
    intro la sa ya lg name w' h
    simp [getNewKeyPairNameLoop] at h
  | succ fuel ih =>
    intro la sa ya lg name w' h
    cases sa with
    | nil => simp [getNewKeyPairNameLoop, run_bind, CaptureString] at h
    | cons a sa =>
      cases a with
      | error e0 => simp [getNewKeyPairNameLoop, run_bind, CaptureString] at h
      | ok n =>
        cases hc : env.CheckKeyPairExists ec2Svc n with
        | error e1 => simp [getNewKeyPairNameLoop, run_bind, CaptureString, run_call, hc] at h
        | ok ex =>
          cases ex with
          | false =>
            simp only [getNewKeyPairNameLoop, run_bind, CaptureString, run_call, hc,
              Bool.not_false, if_true, run_pure, Option.some.injEq, Prod.mk.injEq,
              Except.ok.injEq] at h
            obtain ⟨rfl, rfl⟩ := h
            exact ⟨[], sa, by simp, by simp, hc, by simp [rejectedNameEvents]⟩
          | true =>
            simp only [getNewKeyPairNameLoop, run_bind, CaptureString, run_call, hc,
              Bool.not_true, Bool.false_eq_true, if_false, run_PrintToUser] at h
            obtain ⟨taken, rest, hsa, htaken, hname, hw⟩ := ih _ _ _ _ _ _ h
            refine ⟨n :: taken, rest, by simp [hsa], ?_, hname, ?_⟩
            · intro m hm
              rcases List.mem_cons.1 hm with rfl | hm'
              · exact hc
              · exact htaken m hm'
            · rw [hw]
              simp [rejectedNameEvents]

theorem getNewKeyPairNameLoop_error_inv (env : Env) (ec2Svc : EC2) :
    ∀ (fuel : Nat) (la sa : List (Except Err String)) (ya : List (Except Err Bool))
      (lg : List Event) (e : Err) (w' : World),
      getNewKeyPairNameLoop env ec2Svc fuel ⟨la, sa, ya, lg⟩ = some (Except.error e, w') →
      ∃ (taken : List String) (rest : List (Except Err String)),
        (∀ n ∈ taken, env.CheckKeyPairExists ec2Svc n = Except.ok true) ∧
        (sa = taken.map Except.ok ++ Except.error e :: rest ∨
          ∃ n, sa = taken.map Except.ok ++ Except.ok n :: rest ∧
            env.CheckKeyPairExists ec2Svc n = Except.error e) := by
  intro fuel
  induction fuel with
  | zero =>
    intro la sa ya lg e w' h
    simp [getNewKeyPairNameLoop] at h
  | succ fuel ih =>
    intro la sa ya lg e w' h
    cases sa with
    | nil => simp [getNewKeyPairNameLoop, run_bind, CaptureString] at h
    | cons a sa =>
      cases a with
      | error e0 =>
        simp only [getNewKeyPairNameLoop, run_bind, CaptureString, Option.some.injEq,
          Prod.mk.injEq, Except.error.injEq] at h
        exact ⟨[], sa, by simp, Or.inl (by simp [h.1])⟩
      | ok n =>
        cases hc : env.CheckKeyPairExists ec2Svc n with
        | error e1 =>
          simp only [getNewKeyPairNameLoop, run_bind, CaptureString, run_call, hc,
            Option.some.injEq, Prod.mk.injEq, Except.error.injEq] at h
          exact ⟨[], sa, by simp, Or.inr ⟨n, by simp, by rw [hc, h.1]⟩⟩
        | ok ex =>
          cases ex with
          | false =>
            simp [getNewKeyPairNameLoop, run_bind, CaptureString, run_call, hc, run_pure] at h
          | true =>
            simp only [getNewKeyPairNameLoop, run_bind, CaptureString, run_call, hc,
              Bool.not_true, Bool.false_eq_true, if_false, run_PrintToUser] at h
            obtain ⟨taken, rest, htaken, hsa⟩ := ih _ _ _ _ _ _ h
            refine ⟨n :: taken, rest, ?_, ?_⟩
            · intro m hm
              rcases List.mem_cons.1 hm with rfl | hm'
              · exact hc
              · exact htaken m hm'
            · rcases hsa with hsa | ⟨n', hsa, hn'⟩
              · exact Or.inl (by simp [hsa])
              · exact Or.inr ⟨n', by simp [hsa], hn'⟩

/-- C11: the fresh key-pair name is never one that already exists in the
cloud.  Every name that `getNewKeyPairName` returns was reported by the cloud
check as not existing and is the first such name among the answers, all names
before it being reported as existing; names that exist lead to another prompt,
so that with such answers the function does return that first free name; an
error is returned only when the prompt or the cloud check returns one; and
`promptKeyPairName` pairs the returned name with the certificate name made of
that name followed by `CertSuffix`. -/
theorem getNewKeyPairName_returns_first_fresh_name (env : Env) (ec2Svc : EC2)
    (la sa : List (Except Err String)) (ya : List (Except Err Bool)) (lg : List Event) :
    (∀ (name : String) (w' : World),
      getNewKeyPairName env ec2Svc ⟨la, sa, ya, lg⟩ = some (Except.ok name, w') →
      env.CheckKeyPairExists ec2Svc name = Except.ok false ∧
      ∃ (taken : List String) (rest : List (Except Err String)),
        sa = taken.map Except.ok ++ Except.ok name :: rest ∧
        (∀ n ∈ taken, env.CheckKeyPairExists ec2Svc n = Except.ok true) ∧
        w'.stringAnswers = rest) ∧
    (∀ (taken : List String) (fresh : String) (rest : List (Except Err String)),
      sa = taken.map Except.ok ++ Except.ok fresh :: rest →
      (∀ n ∈ taken, env.CheckKeyPairExists ec2Svc n = Except.ok true) →
      env.CheckKeyPairExists ec2Svc fresh = Except.ok false →
      getNewKeyPairName env ec2Svc ⟨la, sa, ya, lg⟩
        = some (Except.ok fresh,
            ⟨la, rest, ya, lg ++ ([Event.PrintToUser "What do you want to name your key pair?"] ++
              (rejectedNameEvents ec2Svc taken ++
                [Event.CaptureString "Key Pair Name",
                  Event.CheckKeyPairExists ec2Svc fresh]))⟩) ∧
      promptKeyPairName env ec2Svc ⟨la, sa, ya, lg⟩
        = some (Except.ok (fresh ++ env.constants.CertSuffix, fresh),
            ⟨la, rest, ya, lg ++ ([Event.PrintToUser "What do you want to name your key pair?"] ++
              (rejectedNameEvents ec2Svc taken ++
                [Event.CaptureString "Key Pair Name",
                  Event.CheckKeyPairExists ec2Svc fresh]))⟩)) ∧
    (∀ (e : Err) (w' : World),
      getNewKeyPairName env ec2Svc ⟨la, sa, ya, lg⟩ = some (Except.error e, w') →
      ∃ (taken : List String) (rest : List (Except Err String)),
        (∀ n ∈ taken, env.CheckKeyPairExists ec2Svc n = Except.ok true) ∧
        (sa = taken.map Except.ok ++ Except.error e :: rest ∨
          ∃ n, sa = taken.map Except.ok ++ Except.ok n :: rest ∧
            env.CheckKeyPairExists ec2Svc n = Except.error e)) ∧
    (∀ (certName newKeyPairName : String) (w' : World),
      promptKeyPairName env ec2Svc ⟨la, sa, ya, lg⟩
        = some (Except.ok (certName, newKeyPairName), w') →
      certName = newKeyPairName ++ env.constants.CertSuffix ∧
      getNewKeyPairName env ec2Svc ⟨la, sa, ya, lg⟩ = some (Except.ok newKeyPairName, w')) := by
  refine ⟨?_, ?_, ?_, ?_⟩
  · intro name w' h
    simp only [getNewKeyPairName, run_bind, run_PrintToUser] at h
    obtain ⟨taken, rest, hsa, htaken, hname, hw⟩ :=
      getNewKeyPairNameLoop_ok_inv env ec2Svc _ _ _ _ _ _ _ h
    exact ⟨hname, taken, rest, hsa, htaken, by rw [hw]⟩
  · intro taken fresh rest hsa htaken hfresh
    subst hsa
    refine ⟨?_, promptKeyPairName_fresh env ec2Svc taken fresh rest la ya lg htaken hfresh⟩
    simp only [getNewKeyPairName, run_bind, run_PrintToUser]
    rw [getNewKeyPairNameLoop_fresh env ec2Svc fresh rest hfresh taken _ _ _ _ htaken
      (by simp; omega)]
    simp only [List.append_assoc]
  · intro e w' h
    simp only [getNewKeyPairName, run_bind, run_PrintToUser] at h
    exact getNewKeyPairNameLoop_error_inv env ec2Svc _ _ _ _ _ _ _ h
  · intro certName newKeyPairName w' h
    unfold promptKeyPairName at h
    rw [run_bind_eq_ok] at h
    obtain ⟨a, w1, hget, hpure⟩ := h
    rw [pure_eq_ok] at hpure
    obtain ⟨hpair, rfl⟩ := hpure
    simp only [Prod.mk.injEq] at hpair
    obtain ⟨rfl, rfl⟩ := hpair
    exact ⟨rfl, hget⟩

/-- C11, at a concrete input: the key pairs `u-us-east-1-avalanche-cli` and
`mine` exist in the cloud; the user enters `mine`, then `fresh`, and `fresh` is
returned, paired with `fresh-kp.pem`. -/
theorem getNewKeyPairName_returns_first_fresh_name_witness :
    ∃ w', getNewKeyPairName cloudOnlyEnv ⟨"us-east-1"⟩
          ⟨[], [Except.ok "mine", Except.ok "fresh"], [], []⟩
        = some (Except.ok "fresh", w') ∧
      promptKeyPairName cloudOnlyEnv ⟨"us-east-1"⟩
          ⟨[], [Except.ok "mine", Except.ok "fresh"], [], []⟩
        = some (Except.ok ("fresh-kp.pem", "fresh"), w') ∧
      cloudOnlyEnv.CheckKeyPairExists ⟨"us-east-1"⟩ "mine" = Except.ok true ∧
      cloudOnlyEnv.CheckKeyPairExists ⟨"us-east-1"⟩ "fresh" = Except.ok false :=
  ⟨_, ((getNewKeyPairName_returns_first_fresh_name cloudOnlyEnv ⟨"us-east-1"⟩ []
      [Except.ok "mine", Except.ok "fresh"] [] []).2.1 ["mine"] "fresh" [] rfl
      (fun n hn => by rw [List.mem_singleton.1 hn]; rfl) rfl).1,
    rfl, rfl, rfl⟩

/-! ## The dispatch on `latest` -/

theorem emits_promptSubnetNameLoop (env : Env) (fuel : Nat) :
    Emits (fun e => (∀ n, e ≠ Event.LoadSidecar n) ∧
        ∀ v u, e ≠ Event.GetLatestAvalancheGoByProtocolVersion v u)
      (promptSubnetNameLoop env fuel) := by
  induction fuel with
  | zero =>
    intro w r w' h
    simp [promptSubnetNameLoop] at h
  | succ fuel ih =>
    unfold promptSubnetNameLoop
    refine emits_bind (emits_CaptureString (by simp)) fun name => ?_
    refine emits_bind (emits_attempt (emits_call (by simp) _)) fun valid => ?_
    cases valid with
    | ok chains => exact emits_pure _ _
    | error e => exact emits_bind (emits_PrintToUser (by simp)) fun _ => ih

theorem emits_promptAvalancheGoReferenceChoice (env : Env) :
    Emits (fun e => (∀ n, e ≠ Event.LoadSidecar n) ∧
        ∀ v u, e ≠ Event.GetLatestAvalancheGoByProtocolVersion v u)
      (promptAvalancheGoReferenceChoice env) := by
  unfold promptAvalancheGoReferenceChoice
  refine emits_bind (emits_CaptureList (by simp)) fun versionOption => ?_
  exact emits_ite (emits_pure _ _) (emits_fueled (emits_promptSubnetNameLoop env))

theorem loadedSidecars_eq_nil {evs : List Event} (h : ∀ e ∈ evs, ∀ n, e ≠ Event.LoadSidecar n) :
    loadedSidecars evs = [] := by
  induction evs with
  | nil => rfl
  | cons e evs ih =>
    have he := h e (List.mem_cons_self _ _)
    have ih' := ih (fun e' he' => h e' (List.mem_cons_of_mem _ he'))
    cases e <;> simp_all [loadedSidecars]

theorem compatibilityLookups_eq_nil {evs : List Event}
    (h : ∀ e ∈ evs, ∀ v u, e ≠ Event.GetLatestAvalancheGoByProtocolVersion v u) :
    compatibilityLookups evs = [] := by
  induction evs with
  | nil => rfl
  | cons e evs ih =>
    have he := h e (List.mem_cons_self _ _)
    have ih' := ih (fun e' he' => h e' (List.mem_cons_of_mem _ he'))
    cases e <;> simp_all [compatibilityLookups]

/-- C12: `getAvalancheGoVersion` decides between `latest` and a subnet lookup
by comparing the string that `promptAvalancheGoReferenceChoice` returned with
`"latest"`, and by nothing else.  The prompt itself loads no sidecar and asks
for no compatibility lookup.  When the string is `"latest"`, the function
returns `"latest"` and leaves the world as the prompt left it: that is so for
the default option and also for a valid subnet whose name is `latest`.  For
every other string the function loads the sidecar of that subnet and returns
what the compatibility lookup returns for its RPC version, a version or an
error (and the error of the load, should the load fail). -/
theorem getAvalancheGoVersion_dispatches_on_latest (env : Env) :
    (∀ (w w1 : World) (chosenOption : String),
      promptAvalancheGoReferenceChoice env w = some (Except.ok chosenOption, w1) →
      (∃ evs, w1.log = w.log ++ evs ∧ loadedSidecars evs = [] ∧
        compatibilityLookups evs = []) ∧
      (chosenOption = "latest" →
        getAvalancheGoVersion env w = some (Except.ok "latest", w1)) ∧
      (chosenOption ≠ "latest" →
        (∀ sc, env.LoadSidecar chosenOption = Except.ok sc →
          getAvalancheGoVersion env w
            = some (env.GetLatestAvalancheGoByProtocolVersion sc.RPCVersion
                env.constants.AvalancheGoCompatibilityURL,
              { w1 with log := w1.log ++
                [Event.LoadSidecar chosenOption,
                  Event.GetLatestAvalancheGoByProtocolVersion sc.RPCVersion
                    env.constants.AvalancheGoCompatibilityURL] })) ∧
        (∀ e, env.LoadSidecar chosenOption = Except.error e →
          getAvalancheGoVersion env w
            = some (Except.error e,
              { w1 with log := w1.log ++ [Event.LoadSidecar chosenOption] })))) ∧
    (∀ (la sa : List (Except Err String)) (ya : List (Except Err Bool)) (lg : List Event),
      promptAvalancheGoReferenceChoice env
          ⟨Except.ok "Use latest Avalanche Go Version" :: la, sa, ya, lg⟩
        = some (Except.ok "latest",
            ⟨la, sa, ya, lg ++ [Event.CaptureList
              "What version of Avalanche Go would you like to install in the node?"
              ["Use latest Avalanche Go Version",
                "Use the deployed Subnet's VM version that the node will be validating"]]⟩)) ∧
    (∀ (versionOption : String) (invalid : List String) (rest la : List (Except Err String))
        (ya : List (Except Err Bool)) (lg : List Event) (chains : List String),
      versionOption ≠ "Use latest Avalanche Go Version" →
      (∀ n ∈ invalid, ∃ e, env.ValidateSubnetNameAndGetChains [n] = Except.error e) →
      env.ValidateSubnetNameAndGetChains ["latest"] = Except.ok chains →
      promptAvalancheGoReferenceChoice env
          ⟨Except.ok versionOption :: la, invalid.map Except.ok ++ Except.ok "latest" :: rest,
            ya, lg⟩
        = some (Except.ok "latest",
            ⟨la, rest, ya, lg ++
              ([Event.CaptureList
                  "What version of Avalanche Go would you like to install in the node?"
                  ["Use latest Avalanche Go Version",
                    "Use the deployed Subnet's VM version that the node will be validating"]] ++
                invalidNameEvents invalid ++
                [Event.CaptureString
                    "Which Subnet would you like to use to choose the avalanche go version?",
                  Event.ValidateSubnetNameAndGetChains ["latest"]])⟩)) := by
  refine ⟨?_, ?_, ?_⟩
  · intro w w1 chosenOption h
    refine ⟨?_, ?_, ?_⟩
    · obtain ⟨evs, hlog, hev⟩ := emits_promptAvalancheGoReferenceChoice env w _ w1 h
      exact ⟨evs, hlog, loadedSidecars_eq_nil (fun e he => (hev e he).1),
        compatibilityLookups_eq_nil (fun e he => (hev e he).2)⟩
    · intro hl
      subst hl
      unfold getAvalancheGoVersion
      rw [run_bind_of_ok h]
      simp [run_pure]
    · intro hl
      refine ⟨?_, ?_⟩
      · intro sc hsc
        unfold getAvalancheGoVersion
        rw [run_bind_of_ok h]
        cases hS : env.GetLatestAvalancheGoByProtocolVersion sc.RPCVersion
            env.constants.AvalancheGoCompatibilityURL <;>
          simp [hl, run_bind, run_call, hsc, GetLatestAvagoVersionForRPC, hS, run_pure]
      · intro e hsc
        unfold getAvalancheGoVersion
        rw [run_bind_of_ok h]
        simp [hl, run_bind, run_call, hsc]
  · intro la sa ya lg
    simp [promptAvalancheGoReferenceChoice, run_bind, CaptureList, run_pure]
  · intro versionOption invalid rest la ya lg chains hopt hinv hname
    exact promptAvalancheGoReferenceChoice_first_valid env versionOption invalid "latest" rest la
      ya lg chains hopt hinv hname

/-- C12, at a concrete input: a valid subnet named `latest` is taken for the
default choice and no sidecar is loaded, whereas for the valid subnet
`subnetA` the sidecar is loaded and the compatible version returned. -/
theorem getAvalancheGoVersion_dispatches_on_latest_witness :
    (∃ w1, getAvalancheGoVersion latestSubnetEnv
          ⟨[Except.ok "Use the deployed Subnet's VM version that the node will be validating"],
            [Except.ok "latest"], [], []⟩
        = some (Except.ok "latest", w1) ∧ loadedSidecars w1.log = []) ∧
    (∃ w1, getAvalancheGoVersion freshEnv
          ⟨[Except.ok "Use the deployed Subnet's VM version that the node will be validating"],
            [Except.ok "subnetA"], [], []⟩
        = some (Except.ok "v1.10.9", w1) ∧ loadedSidecars w1.log = ["subnetA"]) :=
  ⟨⟨_, ((getAvalancheGoVersion_dispatches_on_latest latestSubnetEnv).1
      ⟨[Except.ok "Use the deployed Subnet's VM version that the node will be validating"],
        [Except.ok "latest"], [], []⟩ _ "latest" rfl).2.1 rfl, rfl⟩,
    ⟨_, (((getAvalancheGoVersion_dispatches_on_latest freshEnv).1
      ⟨[Except.ok "Use the deployed Subnet's VM version that the node will be validating"],
        [Except.ok "subnetA"], [], []⟩ _ "subnetA" rfl).2.2 (by decide)).1
      { RPCVersion := 28 } rfl, rfl⟩⟩

end NodeCmd
